import Mathlib

/-!
# Orbit: a verification development for `orbit.cpp`

The C++ `double` is read as an element of a linearly ordered field `α`
(exact arithmetic: no rounding, no NaN, no infinities).  All definitions are
generic in `α`, hence executable at `α = ℚ` and usable at `α = ℝ`.

`orbit.h` is not part of the sources, so what it declares is taken as a
parameter: the constants `G`, `EarthMass`, `EarthRadius`, `ZeroCelsius`, the
`<cmath>` functions `sqrt` and `exp`, and the geometry primitives
`multiply`, `createQuaternion` and `rotate`.
-/

namespace Orbit

/-- The three `invalid_argument` exceptions thrown by `orbit.cpp`, told apart by their message;
`OutOfRange` stands for reading `flightPlan[j]` past the end of the schedule. -/
inductive Error where
  /-- Thrown by `temperature`: "Height is less than the radius of the Earth". -/
  | InvalidInput
  /-- Thrown by `speed`: "Overload". -/
  | Overload
  /-- Thrown by `speed`: "Overheating". -/
  | Overheating
  /-- Reading `shipParams.flightPlan[j]` with `j` past the end of the vector. -/
  | OutOfRange
  deriving DecidableEq, Repr

/-- Modelled from the spec: the type `vec` of `orbit.h` (absent from the sources), a
3-component vector with public fields `x`, `y`, `z`. -/
structure vec (α : Type) where
  x : α
  y : α
  z : α
  deriving DecidableEq, Repr

/-- Modelled from the spec: `Rotation` of `orbit.h` (absent from the sources); `speed` and
`calculateAngularVelocity` read it as the moments of inertia about the three body axes. -/
structure Rotation (α : Type) where
  rotationAroundX : α
  rotationAroundY : α
  rotationAroundZ : α
  deriving DecidableEq, Repr

section Definitions

variable {α : Type} [LinearOrderedField α]

/-- Modelled from the spec: `vec::getScalar` of `orbit.h` (absent from the sources), the
Euclidean magnitude of the vector; `sqrt` is the `<cmath>` square root. -/
def vec.getScalar (sqrt : α → α) (v : vec α) : α :=
  sqrt (v.x * v.x + v.y * v.y + v.z * v.z)

/-- Modelled from the spec: `vec::multiplyWithDouble` of `orbit.h` (absent from the sources),
the product of the vector with a scalar. -/
def vec.multiplyWithDouble (v : vec α) (a : α) : vec α :=
  ⟨v.x * a, v.y * a, v.z * a⟩

/-- What is assumed of the `<cmath>` function `sqrt`: on a non-negative argument it returns
the non-negative square root. -/
def SqrtSpec (sqrt : α → α) : Prop :=
  ∀ x, 0 ≤ x → 0 ≤ sqrt x ∧ sqrt x * sqrt x = x

/-- `calculateGravityForce`, orbit.cpp lines 4-14. -/
def calculateGravityForce (sqrt : α → α) (G EarthMass : α) (distance : vec α) (shipMass : α) :
    vec α :=
  let distanceScalar := distance.getScalar sqrt
  if distanceScalar = 0 then
    ⟨0, 0, 0⟩
  else
    let a := G * EarthMass * shipMass / distanceScalar ^ 3
    distance.multiplyWithDouble a

/-- `temperature`, orbit.cpp lines 16-56: the temperature (K) at a height above the surface. -/
def temperature (ZeroCelsius height : α) : Except Error α :=
  if height ≤ 0 then
    Except.error Error.InvalidInput
  else
    let t0 := ZeroCelsius
    if height > 145 then
      Except.ok 0
    else
      let t1 := if height > 94 then t0 + (140 * (height - 94) / 51 - 90) else t0
      let t2 := if height > 84 then t1 - 90 else t1
      let t3 := if height > 54 then t2 + (-3 * height + 162) else t2
      if height > 47 then
        Except.ok t3
      else
        let t4 := if height > 20 then t3 + (20 * height - 940) / 9 else t3
        let t5 := if height > 10 then t4 - 60 else t4 + (-8 * height + 20)
        Except.ok t5

/-- `airDensity`, orbit.cpp lines 58-77; the argument is the distance from the planet centre.
`exp` is the `<cmath>` exponential. -/
def airDensity (exp : α → α) (G EarthMass EarthRadius ZeroCelsius : α) (height : α) :
    Except Error α :=
  let height := height - EarthRadius
  match temperature ZeroCelsius height with
  | Except.error e => Except.error e
  | Except.ok T =>
    if T ≤ 0 then
      Except.ok 0
    else
      let p : α := 101325
      let g := G * EarthMass / height ^ 2
      let R : α := 8.31447
      let M : α := 0.0289644
      let P := p * exp (-M * g * height * 1000 / (R * T))
      let density := P * M / (R * T)
      Except.ok (density * 10 ^ 9)

/-- `calculateAerodynamicForce`, orbit.cpp lines 79-85. -/
def calculateAerodynamicForce (sqrt exp : α → α) (G EarthMass EarthRadius ZeroCelsius : α)
    (speed : vec α) (square height : α) : Except Error (vec α) :=
  let v := speed.getScalar sqrt
  match airDensity exp G EarthMass EarthRadius ZeroCelsius height with
  | Except.error e => Except.error e
  | Except.ok p => Except.ok (speed.multiplyWithDouble (-p * v * square / 2))

/-- `calculateTractiveForce`, orbit.cpp lines 87-96. -/
def calculateTractiveForce (sqrt : α → α) (massLevel specificImpulse : α) (speed : vec α) :
    vec α :=
  let v := speed.getScalar sqrt
  if v = 0 then
    ⟨0, 0, 0⟩
  else
    speed.multiplyWithDouble (massLevel * specificImpulse / v)

/-- `calculateAngularVelocity`, orbit.cpp lines 98-128; `multiply` is `vec::multiply` of
`orbit.h` (absent from the sources). -/
def calculateAngularVelocity (multiply : vec α → vec α → vec α)
    (gravityForce aerodynamicForce tractiveForce : vec α) (moment : Rotation α)
    (quantSizeOfSec length : α) (previousAngularVelocity : vec α) : vec α :=
  let x := moment.rotationAroundX
  let y := moment.rotationAroundY
  let z := moment.rotationAroundZ
  let distance : vec α := ⟨length / 2, length / 2, length / 2⟩
  let resultForce : vec α :=
    ⟨gravityForce.x + aerodynamicForce.x + tractiveForce.x,
     gravityForce.y + aerodynamicForce.y + tractiveForce.y,
     gravityForce.z + aerodynamicForce.z + tractiveForce.z⟩
  let momentForce := multiply distance resultForce
  let x := if x ≠ 0 then momentForce.x * quantSizeOfSec / x else x
  let y := if y ≠ 0 then momentForce.y * quantSizeOfSec / y else y
  let z := if z ≠ 0 then momentForce.z * quantSizeOfSec / z else z
  ⟨previousAngularVelocity.x + x, previousAngularVelocity.y + y, previousAngularVelocity.z + z⟩

/-- `aerodynamicHeating`, orbit.cpp lines 130-134. -/
def aerodynamicHeating (sqrt : α → α) (temperature : α) (speed : vec α) : α :=
  temperature + speed.getScalar sqrt ^ 2 / 2

/-- Modelled from the spec: the quaternion type of `orbit.h` (absent from the sources), the
value passed from `vec::createQuaternion` to `vec::rotate`. -/
structure quaternion (α : Type) where
  w : α
  x : α
  y : α
  z : α

/-- What `orbit.cpp` takes from `orbit.h` and `<cmath>`: the constants, `sqrt`, `exp`, and the
geometry primitives `vec::multiply`, `vec::createQuaternion`, `vec::rotate`. -/
structure World (α : Type) where
  sqrt : α → α
  exp : α → α
  G : α
  EarthMass : α
  EarthRadius : α
  ZeroCelsius : α
  multiply : vec α → vec α → vec α
  createQuaternion : vec α → quaternion α
  rotate : vec α → quaternion α → vec α

/-- The tail of `speed`, orbit.cpp lines 181-189: the heating check on the velocity `exit`. -/
def speedHeating (W : World α) (position exit : vec α) (H maxHeating : α) :
    Except Error (vec α) :=
  if H ≤ 6523.1 then
    match temperature W.ZeroCelsius (position.getScalar W.sqrt) with
    | Except.error e => Except.error e
    | Except.ok T =>
      let a := aerodynamicHeating W.sqrt T exit
      if a > maxHeating then Except.error Error.Overheating else Except.ok exit
  else
    Except.ok exit

/-- `speed`, orbit.cpp lines 136-190. The argument `moment` is passed by every caller and
never read by the code. -/
def speed (W : World α) (previousSpeed position orientation : vec α)
    (fuelConsumption mShip mFuel : α) (moment : Rotation α)
    (specificImpulse size quantSizeOfSec maxOverload maxHeating : α) : Except Error (vec α) :=
  let mTotal := mShip + mFuel
  let H := position.getScalar W.sqrt
  let scSpeedFirst := previousSpeed.getScalar W.sqrt
  let S := size * size
  if mTotal ≠ 0 then
    if quantSizeOfSec > 0 then
      match airDensity W.exp W.G W.EarthMass W.EarthRadius W.ZeroCelsius H with
      | Except.error e => Except.error e
      | Except.ok rho =>
        let v1 := rho * scSpeedFirst * S / (2 * mTotal)
        let v2 := 1 / quantSizeOfSec - v1
        let v3 := (calculateTractiveForce W.sqrt fuelConsumption specificImpulse
          previousSpeed).getScalar W.sqrt / mTotal
        let v4 := W.G * W.EarthMass / H ^ 3
        let t1 := previousSpeed.multiplyWithDouble v1
        let t2 := previousSpeed.multiplyWithDouble v2
        let t3 := orientation.multiplyWithDouble v3
        let t4 := position.multiplyWithDouble v4
        let exit : vec α :=
          ⟨(t2.x + t3.x - t4.x) * quantSizeOfSec,
           (t2.y + t3.y - t4.y) * quantSizeOfSec,
           (t2.z + t3.z - t4.z) * quantSizeOfSec⟩
        let overload : vec α :=
          ⟨-t1.x + t3.x - t4.x, -t1.y + t3.y - t4.y, -t1.z + t3.z - t4.z⟩
        let g := W.G * W.EarthMass / H ^ 2
        let over := overload.getScalar W.sqrt / g
        if over > maxOverload then
          Except.error Error.Overload
        else
          speedHeating W position exit H maxHeating
    else
      Except.ok previousSpeed
  else
    speedHeating W position ⟨0, 0, 0⟩ H maxHeating

/-- Modelled from the spec: one entry of `shipParams.flightPlan` (declared in `orbit.h`,
absent from the sources), with the three fields `computeFlightPlan` reads. -/
structure FlightCommand (α : Type) where
  impulseValue : α
  rotateValue : Rotation α
  delayTime : α

/-- Modelled from the spec: `ShipPosition` of `orbit.h` (absent from the sources), with the
fields `computeFlightPlan` reads. -/
structure ShipPosition (α : Type) where
  position : vec α
  orientation : vec α
  speedFirst : vec α
  moment : Rotation α

/-- Modelled from the spec: `ShipParams` of `orbit.h` (absent from the sources), with the
fields `computeFlightPlan` reads. -/
structure ShipParams (α : Type) where
  shipEdgeLength : α
  shipMass : α
  fuelMass : α
  impulsePerFuel : α
  flightPlan : List (FlightCommand α)
  maxOverload : α
  maxHeating : α

/-- Modelled from the spec: `Quants` of `orbit.h` (absent from the sources). -/
structure Quants (α : Type) where
  numberOfQuants : Nat
  quantSizeOfSec : α

/-- Modelled from the spec: `ReturnValues` of `orbit.h` (absent from the sources), one sample
of the output. -/
structure ReturnValues (α : Type) where
  position : vec α
  speed : vec α

/-- The local variables of `computeFlightPlan` that live across loop iterations
(orbit.cpp lines 195-209). -/
structure LoopState (α : Type) where
  i : Nat
  j : Nat
  count : α
  height : α
  fuel : α
  m : α
  currentSpeed : vec α
  moment : Rotation α
  currentOrientation : vec α
  previousAngularVelocity : vec α
  currentPosition : vec α
  calculatedFlightPlan : List (ReturnValues α)

/-- The assignment `calculatedFlightPlan[i].speed = v`; the code runs it with
`i < numberOfQuants` only, the length of the vector. -/
def setSpeed (out : List (ReturnValues α)) (i : Nat) (v : vec α) : List (ReturnValues α) :=
  match out[i]? with
  | none => out
  | some r => out.set i ⟨r.position, v⟩

/-- The assignment `calculatedFlightPlan[i].position = p`; the code runs it with
`i < numberOfQuants` only, the length of the vector. -/
def setPosition (out : List (ReturnValues α)) (i : Nat) (p : vec α) : List (ReturnValues α) :=
  match out[i]? with
  | none => out
  | some r => out.set i ⟨p, r.speed⟩

/-- The position advanced by `speed * time`, as in orbit.cpp lines 233-235 and 252-254. -/
def advance (currentPosition currentSpeed : vec α) (time : α) : vec α :=
  ⟨currentPosition.x + currentSpeed.x * time,
   currentPosition.y + currentSpeed.y * time,
   currentPosition.z + currentSpeed.z * time⟩

/-- The state of `computeFlightPlan` on entry to the loop, orbit.cpp lines 195-209; reading
`flightPlan[0]` of an empty schedule is `OutOfRange`. The `numberOfQuants` entries of the output
vector are value-initialised, read here as zero vectors. -/
def initialState (W : World α) (initialPosition : ShipPosition α) (shipParams : ShipParams α)
    (quants : Quants α) : Except Error (LoopState α) :=
  match shipParams.flightPlan[0]? with
  | none => Except.error Error.OutOfRange
  | some c =>
    Except.ok
      { i := 0
        j := 0
        count := c.delayTime
        height := initialPosition.position.getScalar W.sqrt
        fuel := shipParams.fuelMass
        m := shipParams.fuelMass + shipParams.shipMass
        currentSpeed := initialPosition.speedFirst
        moment := initialPosition.moment
        currentOrientation := initialPosition.orientation
        previousAngularVelocity := ⟨0, 0, 0⟩
        currentPosition := initialPosition.position
        calculatedFlightPlan := List.replicate quants.numberOfQuants ⟨⟨0, 0, 0⟩, ⟨0, 0, 0⟩⟩ }

/-- The fuel branch of the loop body, orbit.cpp lines 222-251: the velocity update (in two
sub-intervals when the fuel runs out), the recorded velocity, and the fuel and mass update. -/
def fuelStep (W : World α) (shipParams : ShipParams α) (quants : Quants α) (level : α)
    (s : LoopState α) : Except Error (LoopState α) :=
  if level * quants.quantSizeOfSec > s.fuel then
    let time := s.fuel / level
    let timeOut := quants.quantSizeOfSec - time
    match speed W s.currentSpeed s.currentPosition s.currentOrientation level
        shipParams.shipMass s.fuel s.moment shipParams.impulsePerFuel shipParams.shipEdgeLength
        time shipParams.maxOverload shipParams.maxHeating with
    | Except.error e => Except.error e
    | Except.ok currentSpeed =>
      let out := setSpeed s.calculatedFlightPlan s.i currentSpeed
      let m := s.m - s.fuel
      let fuel : α := 0
      let currentPosition := advance s.currentPosition currentSpeed time
      match speed W currentSpeed currentPosition s.currentOrientation 0
          shipParams.shipMass fuel s.moment shipParams.impulsePerFuel shipParams.shipEdgeLength
          timeOut shipParams.maxOverload shipParams.maxHeating with
      | Except.error e => Except.error e
      | Except.ok currentSpeed2 =>
        Except.ok { s with currentSpeed := currentSpeed2, calculatedFlightPlan := out, m := m,
                           fuel := fuel, currentPosition := currentPosition }
  else
    match speed W s.currentSpeed s.currentPosition s.currentOrientation level
        shipParams.shipMass s.fuel s.moment shipParams.impulsePerFuel shipParams.shipEdgeLength
        quants.quantSizeOfSec shipParams.maxOverload shipParams.maxHeating with
    | Except.error e => Except.error e
    | Except.ok currentSpeed =>
      Except.ok { s with currentSpeed := currentSpeed,
                         calculatedFlightPlan := setSpeed s.calculatedFlightPlan s.i currentSpeed,
                         fuel := s.fuel - level * quants.quantSizeOfSec,
                         m := s.m - level * quants.quantSizeOfSec }

/-- The value of `cosA` in the ground-crossing branch, orbit.cpp lines 266-270; `height` is the
variable of that name, assigned `currentPosition.getScalar()` at line 255. -/
def landingCosA (sqrt : α → α) (currentPosition currentSpeed : vec α)
    (quantSizeOfSec height : α) : α :=
  let way : vec α :=
    ⟨currentSpeed.x * quantSizeOfSec, currentSpeed.y * quantSizeOfSec,
     currentSpeed.z * quantSizeOfSec⟩
  (way.getScalar sqrt ^ 2 + height ^ 2 - currentPosition.getScalar sqrt ^ 2) /
    (2 * way.getScalar sqrt * height)

/-- The value of `landingTime` in the ground-crossing branch, orbit.cpp lines 266-273. -/
def landingTime (sqrt : α → α) (EarthRadius : α) (currentPosition currentSpeed : vec α)
    (quantSizeOfSec height : α) : α :=
  let cosA := landingCosA sqrt currentPosition currentSpeed quantSizeOfSec height
  let extraWay := height * cosA - sqrt (height ^ 2 * cosA ^ 2 + EarthRadius ^ 2 - height ^ 2)
  extraWay / currentSpeed.getScalar sqrt

/-- The landing position of the ground-crossing branch, orbit.cpp lines 266-276. -/
def landingPosition (sqrt : α → α) (EarthRadius : α) (currentPosition currentSpeed : vec α)
    (quantSizeOfSec height : α) : vec α :=
  advance currentPosition currentSpeed
    (landingTime sqrt EarthRadius currentPosition currentSpeed quantSizeOfSec height)

/-- What one pass through the loop body ends with: `next` falls through to `i++`, `stop` is
a `break`. -/
inductive Outcome (α : Type) where
  | next (s : LoopState α)
  | stop (s : LoopState α)

/-- The state carried by an outcome. -/
def Outcome.state : Outcome α → LoopState α
  | Outcome.next s => s
  | Outcome.stop s => s

/-- The end of the loop body, orbit.cpp lines 252-289: the position update, the two landing
branches and the command scheduling. -/
def positionStep (W : World α) (shipParams : ShipParams α) (quants : Quants α)
    (s : LoopState α) : Except Error (Outcome α) :=
  let currentPosition := advance s.currentPosition s.currentSpeed quants.quantSizeOfSec
  let height := currentPosition.getScalar W.sqrt
  if height < W.EarthRadius + 0.1 ∧ height ≥ W.EarthRadius then
    Except.ok (Outcome.stop { s with
      height := W.EarthRadius
      currentPosition := currentPosition
      calculatedFlightPlan := setPosition s.calculatedFlightPlan s.i currentPosition })
  else if height < W.EarthRadius then
    let landed := landingPosition W.sqrt W.EarthRadius currentPosition s.currentSpeed
      quants.quantSizeOfSec height
    Except.ok (Outcome.stop { s with
      height := W.EarthRadius
      currentPosition := landed
      calculatedFlightPlan := setPosition s.calculatedFlightPlan s.i landed })
  else
    let out := setPosition s.calculatedFlightPlan s.i currentPosition
    if s.count ≤ 0 then
      match shipParams.flightPlan[s.j + 1]? with
      | none => Except.error Error.OutOfRange
      | some c =>
        Except.ok (Outcome.next { s with
          height := height, currentPosition := currentPosition, calculatedFlightPlan := out
          j := s.j + 1, count := c.delayTime })
    else
      Except.ok (Outcome.next { s with
        height := height, currentPosition := currentPosition, calculatedFlightPlan := out
        count := s.count - quants.quantSizeOfSec })

/-- One pass through the loop body of `computeFlightPlan`, orbit.cpp lines 212-289. -/
def loopBody (W : World α) (shipParams : ShipParams α) (quants : Quants α)
    (s : LoopState α) : Except Error (Outcome α) :=
  match shipParams.flightPlan[s.j]? with
  | none => Except.error Error.OutOfRange
  | some c =>
    let level := c.impulseValue
    let moment := c.rotateValue
    let S := shipParams.shipEdgeLength ^ 2
    let gravityForce := calculateGravityForce W.sqrt W.G W.EarthMass s.currentPosition s.m
    match calculateAerodynamicForce W.sqrt W.exp W.G W.EarthMass W.EarthRadius W.ZeroCelsius
        s.currentSpeed S s.height with
    | Except.error e => Except.error e
    | Except.ok aerodynamicForce =>
      let tractiveForce :=
        calculateTractiveForce W.sqrt level shipParams.impulsePerFuel s.currentSpeed
      let previousAngularVelocity :=
        calculateAngularVelocity W.multiply gravityForce aerodynamicForce tractiveForce moment
          quants.quantSizeOfSec shipParams.shipEdgeLength s.previousAngularVelocity
      let currentOrientation :=
        W.rotate s.currentOrientation (W.createQuaternion previousAngularVelocity)
      match fuelStep W shipParams quants level
          { s with moment := moment, previousAngularVelocity := previousAngularVelocity,
                   currentOrientation := currentOrientation } with
      | Except.error e => Except.error e
      | Except.ok s1 => positionStep W shipParams quants s1

/-- The loop of `computeFlightPlan`, orbit.cpp line 210, run for at most `n` passes: the
state when the loop is left, or after `n` passes. -/
def loop (W : World α) (shipParams : ShipParams α) (quants : Quants α) :
    Nat → LoopState α → Except Error (LoopState α)
  | 0, s => Except.ok s
  | n + 1, s =>
    if s.i < quants.numberOfQuants ∧ s.height > W.EarthRadius then
      match loopBody W shipParams quants s with
      | Except.error e => Except.error e
      | Except.ok (Outcome.stop s1) => Except.ok s1
      | Except.ok (Outcome.next s1) => loop W shipParams quants n { s1 with i := s1.i + 1 }
    else
      Except.ok s

/-- The padding after the loop, orbit.cpp lines 291-299: the slots `j = i, i+1, ...` get the
position stored in slot `i`. -/
def padding (numberOfQuants : Nat) (s : LoopState α) : List (ReturnValues α) :=
  match s.calculatedFlightPlan[s.i]? with
  | none => s.calculatedFlightPlan
  | some r =>
    (List.range (numberOfQuants - s.i)).foldl
      (fun out k => setPosition out (s.i + k) r.position) s.calculatedFlightPlan

/-- `computeFlightPlan`, orbit.cpp lines 192-301. The loop runs at most `numberOfQuants`
passes, since every pass that does not leave it increments `i`. -/
def computeFlightPlan (W : World α) (initialPosition : ShipPosition α)
    (shipParams : ShipParams α) (quants : Quants α) : Except Error (List (ReturnValues α)) :=
  match initialState W initialPosition shipParams quants with
  | Except.error e => Except.error e
  | Except.ok s0 =>
    match loop W shipParams quants quants.numberOfQuants s0 with
    | Except.error e => Except.error e
    | Except.ok s =>
      if s.height ≤ W.EarthRadius then
        Except.ok (padding quants.numberOfQuants s)
      else
        Except.ok s.calculatedFlightPlan

/-- The start of the loop body, orbit.cpp lines 212-221, for the command `c = flightPlan[j]`:
the three forces, the angular velocity and the orientation. `loopBody` runs these lines, then
`fuelStep`, then `positionStep` (`loopBody_eq`). -/
def rotationStep (W : World α) (shipParams : ShipParams α) (quants : Quants α)
    (c : FlightCommand α) (s : LoopState α) : Except Error (LoopState α) :=
  let level := c.impulseValue
  let moment := c.rotateValue
  let S := shipParams.shipEdgeLength ^ 2
  let gravityForce := calculateGravityForce W.sqrt W.G W.EarthMass s.currentPosition s.m
  match calculateAerodynamicForce W.sqrt W.exp W.G W.EarthMass W.EarthRadius W.ZeroCelsius
      s.currentSpeed S s.height with
  | Except.error e => Except.error e
  | Except.ok aerodynamicForce =>
    let tractiveForce :=
      calculateTractiveForce W.sqrt level shipParams.impulsePerFuel s.currentSpeed
    let previousAngularVelocity :=
      calculateAngularVelocity W.multiply gravityForce aerodynamicForce tractiveForce moment
        quants.quantSizeOfSec shipParams.shipEdgeLength s.previousAngularVelocity
    let currentOrientation :=
      W.rotate s.currentOrientation (W.createQuaternion previousAngularVelocity)
    Except.ok { s with moment := moment, previousAngularVelocity := previousAngularVelocity,
                       currentOrientation := currentOrientation }

/-- The drag rate in the words of claims C13 and C15, for an air density `rho`:
`rho * |previousSpeed| * size ^ 2 / (2 * mTotal)`. -/
def dragRate (W : World α) (previousSpeed : vec α) (mTotal size rho : α) : α :=
  rho * previousSpeed.getScalar W.sqrt * size ^ 2 / (2 * mTotal)

/-- The thrust rate in the words of claims C13 and C15:
`|calculateTractiveForce(fuelConsumption, specificImpulse, previousSpeed)| / mTotal`. -/
def thrustRate (W : World α) (previousSpeed : vec α)
    (fuelConsumption mTotal specificImpulse : α) : α :=
  (calculateTractiveForce W.sqrt fuelConsumption specificImpulse previousSpeed).getScalar W.sqrt
    / mTotal

/-- The gravity rate in the words of claims C13 and C15: `G * EarthMass / H ^ 3` with
`H = |position|`. -/
def gravityRate (W : World α) (position : vec α) : α :=
  W.G * W.EarthMass / position.getScalar W.sqrt ^ 3

/-- The net acceleration in the words of claims C13 and C15:
`-dragRate * previousSpeed + thrustRate * orientation - gravityRate * position`. -/
def netAcceleration (W : World α) (previousSpeed position orientation : vec α)
    (fuelConsumption mTotal specificImpulse size rho : α) : vec α :=
  ⟨-dragRate W previousSpeed mTotal size rho * previousSpeed.x
      + thrustRate W previousSpeed fuelConsumption mTotal specificImpulse * orientation.x
      - gravityRate W position * position.x,
   -dragRate W previousSpeed mTotal size rho * previousSpeed.y
      + thrustRate W previousSpeed fuelConsumption mTotal specificImpulse * orientation.y
      - gravityRate W position * position.y,
   -dragRate W previousSpeed mTotal size rho * previousSpeed.z
      + thrustRate W previousSpeed fuelConsumption mTotal specificImpulse * orientation.z
      - gravityRate W position * position.z⟩

/-- The new velocity in the words of claim C15 and of the spec:
`(previousSpeed * (1/dt - dragRate) + orientation * thrustRate - position * gravityRate) * dt`. -/
def speedFormula (W : World α) (previousSpeed position orientation : vec α)
    (fuelConsumption mTotal specificImpulse size quantSizeOfSec rho : α) : vec α :=
  ⟨(previousSpeed.x * (1 / quantSizeOfSec - dragRate W previousSpeed mTotal size rho)
      + orientation.x * thrustRate W previousSpeed fuelConsumption mTotal specificImpulse
      - position.x * gravityRate W position) * quantSizeOfSec,
   (previousSpeed.y * (1 / quantSizeOfSec - dragRate W previousSpeed mTotal size rho)
      + orientation.y * thrustRate W previousSpeed fuelConsumption mTotal specificImpulse
      - position.y * gravityRate W position) * quantSizeOfSec,
   (previousSpeed.z * (1 / quantSizeOfSec - dragRate W previousSpeed mTotal size rho)
      + orientation.z * thrustRate W previousSpeed fuelConsumption mTotal specificImpulse
      - position.z * gravityRate W position) * quantSizeOfSec⟩

/-- The explicit Euler step in the words of claim C15: `previousSpeed + dt * a` with `a` the
net acceleration. -/
def eulerUpdate (W : World α) (previousSpeed position orientation : vec α)
    (fuelConsumption mTotal specificImpulse size quantSizeOfSec rho : α) : vec α :=
  ⟨previousSpeed.x + quantSizeOfSec * (netAcceleration W previousSpeed position orientation
      fuelConsumption mTotal specificImpulse size rho).x,
   previousSpeed.y + quantSizeOfSec * (netAcceleration W previousSpeed position orientation
      fuelConsumption mTotal specificImpulse size rho).y,
   previousSpeed.z + quantSizeOfSec * (netAcceleration W previousSpeed position orientation
      fuelConsumption mTotal specificImpulse size rho).z⟩

/-- The cross product, the sample `vec::multiply`. -/
def cross (a b : vec α) : vec α :=
  ⟨a.y * b.z - a.z * b.y, a.z * b.x - a.x * b.z, a.x * b.y - a.y * b.x⟩

/-- A sample world for the concrete runs below: `G` and `EarthMass` in km-kg-s units, a planet of
radius 6378.1, `sqrt` and `exp` left as parameters. The geometry primitives are stand-ins (the
cross product, the small-angle quaternion of an angular velocity, and the rotation of a vector
by a unit quaternion); the concrete runs use them at zero angular velocity only, where the
rotation is the identity. -/
def sampleWorld (sqrt exp : α → α) : World α :=
  { sqrt := sqrt
    exp := exp
    G := 6.67e-20
    EarthMass := 5.97e24
    EarthRadius := 6378.1
    ZeroCelsius := 273.15
    multiply := cross
    createQuaternion := fun v => ⟨1, v.x / 2, v.y / 2, v.z / 2⟩
    rotate := fun v q =>
      let u : vec α := ⟨q.x, q.y, q.z⟩
      let t := cross u v
      let tt := cross u t
      ⟨v.x + 2 * (q.w * t.x + tt.x), v.y + 2 * (q.w * t.y + tt.y),
       v.z + 2 * (q.w * t.z + tt.z)⟩ }

/-- A sample vehicle: dry mass 1000, fuel 500, one command burning 2 per second for 1000
seconds with all three axes locked. -/
def descentParams : ShipParams α :=
  { shipEdgeLength := 0.002
    shipMass := 1000
    fuelMass := 500
    impulsePerFuel := 3
    flightPlan := [⟨2, ⟨0, 0, 0⟩, 1000⟩]
    maxOverload := 10
    maxHeating := 1000 }

/-- A sample start: 200 above the surface of the sample world, falling straight down at 3 per
second, the orientation along the velocity. -/
def descentStart : ShipPosition α :=
  { position := ⟨6578.1, 0, 0⟩
    orientation := ⟨-1, 0, 0⟩
    speedFirst := ⟨-3, 0, 0⟩
    moment := ⟨0, 0, 0⟩ }

/-- One quant of 100 seconds. -/
def descentQuants : Quants α :=
  ⟨1, 100⟩

/-- The state in which `computeFlightPlan` enters the loop on the sample descent. -/
def descentState : LoopState α :=
  { i := 0
    j := 0
    count := 1000
    height := 6578.1
    fuel := 500
    m := 1500
    currentSpeed := ⟨-3, 0, 0⟩
    moment := ⟨0, 0, 0⟩
    currentOrientation := ⟨-1, 0, 0⟩
    previousAngularVelocity := ⟨0, 0, 0⟩
    currentPosition := ⟨6578.1, 0, 0⟩
    calculatedFlightPlan := [⟨⟨0, 0, 0⟩, ⟨0, 0, 0⟩⟩] }

/-- The velocity `speed` returns in the first pass of the sample descent. -/
def descentSpeed : vec α :=
  ⟨-(31157109779 / 7211899935), 0, 0⟩

/-- The position after the first pass of the sample descent, before the landing branch:
`descentStart.position` advanced by `descentSpeed * 100`; it lies about 6146.1 from the
centre, below the surface. -/
def descentBelow : vec α :=
  ⟨88649775969047 / 14423799870, 0, 0⟩

/-- The landing position the ground-crossing branch computes on the sample descent. -/
def descentLanding (sqrt : α → α) : vec α :=
  landingPosition sqrt 6378.1 descentBelow descentSpeed 100 (88649775969047 / 14423799870)

/-- The state in which the first pass of the sample descent leaves the loop. -/
def descentLanded (sqrt : α → α) : LoopState α :=
  { i := 0
    j := 0
    count := 1000
    height := 6378.1
    fuel := 300
    m := 1300
    currentSpeed := descentSpeed
    moment := ⟨0, 0, 0⟩
    currentOrientation := ⟨-1, 0, 0⟩
    previousAngularVelocity := ⟨0, 0, 0⟩
    currentPosition := descentLanding sqrt
    calculatedFlightPlan := [⟨descentLanding sqrt, descentSpeed⟩] }

/-- Three quants of 100 seconds. -/
def descentQuants3 : Quants α :=
  ⟨3, 100⟩

/-- The state in which `computeFlightPlan` enters the loop on the sample descent with three
quants. -/
def descentState3 : LoopState α :=
  { (descentState : LoopState α) with
    calculatedFlightPlan :=
      [⟨⟨0, 0, 0⟩, ⟨0, 0, 0⟩⟩, ⟨⟨0, 0, 0⟩, ⟨0, 0, 0⟩⟩, ⟨⟨0, 0, 0⟩, ⟨0, 0, 0⟩⟩] }

/-- The state in which the first pass of the sample descent with three quants leaves the
loop. -/
def descentLanded3 (sqrt : α → α) : LoopState α :=
  { descentLanded sqrt with
    calculatedFlightPlan :=
      [⟨descentLanding sqrt, descentSpeed⟩, ⟨⟨0, 0, 0⟩, ⟨0, 0, 0⟩⟩, ⟨⟨0, 0, 0⟩, ⟨0, 0, 0⟩⟩] }

/-- The sample vehicle with the overload limit lowered to 1. -/
def overloadParams : ShipParams α :=
  { (descentParams : ShipParams α) with maxOverload := 1 }

/-- A sample start on the surface of the sample world, at rest. -/
def groundStart : ShipPosition α :=
  { position := ⟨6378.1, 0, 0⟩
    orientation := ⟨-1, 0, 0⟩
    speedFirst := ⟨0, 0, 0⟩
    moment := ⟨0, 0, 0⟩ }

/-- The sample vehicle with a single zero-thrust command. -/
def restParams : ShipParams α :=
  { (descentParams : ShipParams α) with flightPlan := [⟨0, ⟨0, 0, 0⟩, 1000⟩] }

/-- A sample vehicle with two commands: burning 1 per second for 1 second, then 2 per second
for 5 seconds. -/
def coastParams : ShipParams α :=
  { (descentParams : ShipParams α) with
    flightPlan := [⟨1, ⟨0, 0, 0⟩, 1⟩, ⟨2, ⟨0, 0, 0⟩, 5⟩] }

/-- A sample start 7000 from the centre of the sample world, at rest. -/
def coastStart : ShipPosition α :=
  { position := ⟨7000, 0, 0⟩
    orientation := ⟨-1, 0, 0⟩
    speedFirst := ⟨0, 0, 0⟩
    moment := ⟨0, 0, 0⟩ }

/-- Three quants of 1 second: the first command of `coastParams` has `delayTime = 1 * dt`. -/
def coastQuants : Quants α :=
  ⟨3, 1⟩

/-- The state in which `computeFlightPlan` enters the loop on the sample coast. -/
def coastState : LoopState α :=
  { i := 0
    j := 0
    count := 1
    height := 7000
    fuel := 500
    m := 1500
    currentSpeed := ⟨0, 0, 0⟩
    moment := ⟨0, 0, 0⟩
    currentOrientation := ⟨-1, 0, 0⟩
    previousAngularVelocity := ⟨0, 0, 0⟩
    currentPosition := ⟨7000, 0, 0⟩
    calculatedFlightPlan :=
      [⟨⟨0, 0, 0⟩, ⟨0, 0, 0⟩⟩, ⟨⟨0, 0, 0⟩, ⟨0, 0, 0⟩⟩, ⟨⟨0, 0, 0⟩, ⟨0, 0, 0⟩⟩] }

/-- The state of the sample coast at the head of the loop for step 1. -/
def coastState1 : LoopState α :=
  { i := 1
    j := 0
    count := 0
    height := 342999601801 / 49000000
    fuel := 499
    m := 1499
    currentSpeed := ⟨-(398199 / 49000000), 0, 0⟩
    moment := ⟨0, 0, 0⟩
    currentOrientation := ⟨-1, 0, 0⟩
    previousAngularVelocity := ⟨0, 0, 0⟩
    currentPosition := ⟨342999601801 / 49000000, 0, 0⟩
    calculatedFlightPlan :=
      [⟨⟨342999601801 / 49000000, 0, 0⟩, ⟨-(398199 / 49000000), 0, 0⟩⟩,
       ⟨⟨0, 0, 0⟩, ⟨0, 0, 0⟩⟩, ⟨⟨0, 0, 0⟩, ⟨0, 0, 0⟩⟩] }

end Definitions

end Orbit

namespace Orbit

section Atmosphere

variable {α : Type} [LinearOrderedField α]

/-- On `height ≤ 0` the guard of `temperature` throws. -/
theorem temperature_of_nonpos (ZeroCelsius height : α) (h : height ≤ 0) :
    temperature ZeroCelsius height = Except.error Error.InvalidInput := by
  unfold temperature
  rw [if_pos h]

/-- On `height > 0` no path of `temperature` throws. -/
theorem temperature_of_pos (ZeroCelsius height : α) (h : 0 < height) :
    ∃ t, temperature ZeroCelsius height = Except.ok t := by
  unfold temperature
  rw [if_neg (not_le.mpr h)]
  dsimp only
  by_cases h145 : height > 145
  · rw [if_pos h145]; exact ⟨_, rfl⟩
  · rw [if_neg h145]
    by_cases h47 : height > 47
    · rw [if_pos h47]; exact ⟨_, rfl⟩
    · rw [if_neg h47]; exact ⟨_, rfl⟩

/-- C1: `temperature` fails with `InvalidInput` exactly when `height ≤ 0`, and returns a value
(no error) exactly when `height > 0`. -/
theorem temperature_error_iff (ZeroCelsius height : α) :
    (temperature ZeroCelsius height = Except.error Error.InvalidInput ↔ height ≤ 0) ∧
    ((∃ t, temperature ZeroCelsius height = Except.ok t) ↔ 0 < height) := by
  by_cases h : height ≤ 0
  · have e := temperature_of_nonpos ZeroCelsius height h
    refine ⟨⟨fun _ => h, fun _ => e⟩, ⟨?_, fun h0 => absurd h (not_le.mpr h0)⟩⟩
    rintro ⟨t, ht⟩
    rw [e] at ht
    cases ht
  · have h0 : 0 < height := not_le.mp h
    obtain ⟨t, ht⟩ := temperature_of_pos ZeroCelsius height h0
    refine ⟨⟨?_, fun h1 => absurd h1 h⟩, ⟨fun _ => h0, fun _ => ⟨t, ht⟩⟩⟩
    intro e
    rw [ht] at e
    cases e

/-- C2: for `height > 0`, `temperature` is the piecewise function of the eight altitude bands
(`Z = ZeroCelsius`); in particular it is `0` above 145. -/
theorem temperature_piecewise (Z height : α) (h0 : 0 < height) :
    (145 < height → temperature Z height = Except.ok 0) ∧
    (94 < height → height ≤ 145 →
      temperature Z height = Except.ok (Z - 18 + 140 * (height - 94) / 51 - 3 * height)) ∧
    (84 < height → height ≤ 94 → temperature Z height = Except.ok (Z + 72 - 3 * height)) ∧
    (54 < height → height ≤ 84 → temperature Z height = Except.ok (Z + 162 - 3 * height)) ∧
    (47 < height → height ≤ 54 → temperature Z height = Except.ok Z) ∧
    (20 < height → height ≤ 47 →
      temperature Z height = Except.ok (Z - 60 + (20 * height - 940) / 9)) ∧
    (10 < height → height ≤ 20 → temperature Z height = Except.ok (Z - 60)) ∧
    (height ≤ 10 → temperature Z height = Except.ok (Z + 20 - 8 * height)) := by
  have hn : ¬ height ≤ 0 := not_le.mpr h0
  refine ⟨?_, ?_, ?_, ?_, ?_, ?_, ?_, ?_⟩
  · intro h1
    unfold temperature
    rw [if_neg hn]
    dsimp only
    rw [if_pos h1]
  · intro h1 h2
    have a1 : ¬ height > 145 := not_lt.mpr h2
    have a2 : height > 84 := by linarith
    have a3 : height > 54 := by linarith
    have a4 : height > 47 := by linarith
    unfold temperature
    rw [if_neg hn]
    dsimp only
    rw [if_neg a1, if_pos h1, if_pos a2, if_pos a3, if_pos a4]
    congr 1
    ring
  · intro h1 h2
    have a1 : ¬ height > 145 := by linarith
    have a2 : ¬ height > 94 := not_lt.mpr h2
    have a3 : height > 54 := by linarith
    have a4 : height > 47 := by linarith
    unfold temperature
    rw [if_neg hn]
    dsimp only
    rw [if_neg a1, if_neg a2, if_pos h1, if_pos a3, if_pos a4]
    congr 1
    ring
  · intro h1 h2
    have a1 : ¬ height > 145 := by linarith
    have a2 : ¬ height > 94 := by linarith
    have a3 : ¬ height > 84 := not_lt.mpr h2
    have a4 : height > 47 := by linarith
    unfold temperature
    rw [if_neg hn]
    dsimp only
    rw [if_neg a1, if_neg a2, if_neg a3, if_pos h1, if_pos a4]
    congr 1
    ring
  · intro h1 h2
    have a1 : ¬ height > 145 := by linarith
    have a2 : ¬ height > 94 := by linarith
    have a3 : ¬ height > 84 := by linarith
    have a4 : ¬ height > 54 := not_lt.mpr h2
    unfold temperature
    rw [if_neg hn]
    dsimp only
    rw [if_neg a1, if_neg a2, if_neg a3, if_neg a4, if_pos h1]
  · intro h1 h2
    have a1 : ¬ height > 145 := by linarith
    have a2 : ¬ height > 94 := by linarith
    have a3 : ¬ height > 84 := by linarith
    have a4 : ¬ height > 54 := by linarith
    have a5 : ¬ height > 47 := not_lt.mpr h2
    have a6 : height > 10 := by linarith
    unfold temperature
    rw [if_neg hn]
    dsimp only
    rw [if_neg a1, if_neg a2, if_neg a3, if_neg a4, if_neg a5, if_pos h1, if_pos a6]
    congr 1
    ring
  · intro h1 h2
    have a1 : ¬ height > 145 := by linarith
    have a2 : ¬ height > 94 := by linarith
    have a3 : ¬ height > 84 := by linarith
    have a4 : ¬ height > 54 := by linarith
    have a5 : ¬ height > 47 := by linarith
    have a6 : ¬ height > 20 := not_lt.mpr h2
    unfold temperature
    rw [if_neg hn]
    dsimp only
    rw [if_neg a1, if_neg a2, if_neg a3, if_neg a4, if_neg a5, if_neg a6, if_pos h1]
  · intro h2
    have a1 : ¬ height > 145 := by linarith
    have a2 : ¬ height > 94 := by linarith
    have a3 : ¬ height > 84 := by linarith
    have a4 : ¬ height > 54 := by linarith
    have a5 : ¬ height > 47 := by linarith
    have a6 : ¬ height > 20 := by linarith
    have a7 : ¬ height > 10 := not_lt.mpr h2
    unfold temperature
    rw [if_neg hn]
    dsimp only
    rw [if_neg a1, if_neg a2, if_neg a3, if_neg a4, if_neg a5, if_neg a6, if_neg a7]
    congr 1
    ring

/-- Witness for C2 at `α = ℚ`, `ZeroCelsius = 273.15`, `height = 100`. -/
theorem temperature_piecewise_witness :
    (0 : ℚ) < 100 ∧
    ((145 < (100 : ℚ) → temperature (273.15 : ℚ) 100 = Except.ok 0) ∧
    (94 < (100 : ℚ) → (100 : ℚ) ≤ 145 →
      temperature (273.15 : ℚ) 100 = Except.ok (273.15 - 18 + 140 * (100 - 94) / 51 - 3 * 100)) ∧
    (84 < (100 : ℚ) → (100 : ℚ) ≤ 94 → temperature (273.15 : ℚ) 100
      = Except.ok (273.15 + 72 - 3 * 100)) ∧
    (54 < (100 : ℚ) → (100 : ℚ) ≤ 84 → temperature (273.15 : ℚ) 100
      = Except.ok (273.15 + 162 - 3 * 100)) ∧
    (47 < (100 : ℚ) → (100 : ℚ) ≤ 54 → temperature (273.15 : ℚ) 100 = Except.ok 273.15) ∧
    (20 < (100 : ℚ) → (100 : ℚ) ≤ 47 →
      temperature (273.15 : ℚ) 100 = Except.ok (273.15 - 60 + (20 * 100 - 940) / 9)) ∧
    (10 < (100 : ℚ) → (100 : ℚ) ≤ 20 → temperature (273.15 : ℚ) 100
      = Except.ok (273.15 - 60)) ∧
    ((100 : ℚ) ≤ 10 → temperature (273.15 : ℚ) 100 = Except.ok (273.15 + 20 - 8 * 100))) :=
  ⟨by norm_num, temperature_piecewise (273.15 : ℚ) 100 (by norm_num)⟩

/-- C3: for a distance from the centre `height > EarthRadius`, `airDensity` returns a value
`d ≥ 0`; with `T` the temperature at `height - EarthRadius`, `d = 0` when `T ≤ 0` and `d > 0`
otherwise. The `<cmath>` exponential is assumed positive. -/
theorem airDensity_nonneg (exp : α → α) (hexp : ∀ x, 0 < exp x)
    (G EarthMass EarthRadius ZeroCelsius height : α) (hh : EarthRadius < height) :
    ∃ d T, temperature ZeroCelsius (height - EarthRadius) = Except.ok T ∧
      airDensity exp G EarthMass EarthRadius ZeroCelsius height = Except.ok d ∧
      0 ≤ d ∧ (T ≤ 0 → d = 0) ∧ (¬ T ≤ 0 → 0 < d) := by
  obtain ⟨T, hT⟩ := temperature_of_pos ZeroCelsius (height - EarthRadius) (sub_pos.mpr hh)
  unfold airDensity
  dsimp only
  rw [hT]
  dsimp only
  by_cases hT0 : T ≤ 0
  · rw [if_pos hT0]
    exact ⟨0, T, rfl, rfl, le_refl 0, fun _ => rfl, fun h => absurd hT0 h⟩
  · rw [if_neg hT0]
    have hTpos : 0 < T := not_le.mp hT0
    have hR : (0 : α) < 8.31447 := by norm_num
    have hM : (0 : α) < 0.0289644 := by norm_num
    have hp : (0 : α) < 101325 := by norm_num
    have hd : 0 < 101325 * exp (-0.0289644 * (G * EarthMass / (height - EarthRadius) ^ 2) *
        (height - EarthRadius) * 1000 / (8.31447 * T)) * 0.0289644 / (8.31447 * T) * 10 ^ 9 :=
      mul_pos (div_pos (mul_pos (mul_pos hp (hexp _)) hM) (mul_pos hR hTpos)) (by norm_num)
    exact ⟨_, T, rfl, rfl, le_of_lt hd, fun h => absurd h hT0, fun _ => hd⟩

/-- Witness for C3 at `α = ℝ` with the real exponential, 10 km above a planet of radius
6378.1. -/
theorem airDensity_nonneg_witness :
    (∀ x : ℝ, 0 < Real.exp x) ∧ (6378.1 : ℝ) < 6388.1 ∧
    ∃ d T, temperature (273.15 : ℝ) (6388.1 - 6378.1) = Except.ok T ∧
      airDensity Real.exp (6.67e-20 : ℝ) 5.97e24 6378.1 273.15 6388.1 = Except.ok d ∧
      0 ≤ d ∧ (T ≤ 0 → d = 0) ∧ (¬ T ≤ 0 → 0 < d) :=
  ⟨Real.exp_pos, by norm_num,
    airDensity_nonneg Real.exp Real.exp_pos (6.67e-20 : ℝ) 5.97e24 6378.1 273.15 6388.1
      (by norm_num)⟩

end Atmosphere

section Forces

variable {α : Type} [LinearOrderedField α]

/-- The real square root meets `SqrtSpec`. -/
theorem sqrtSpec_real : SqrtSpec Real.sqrt :=
  fun x hx => ⟨Real.sqrt_nonneg x, Real.mul_self_sqrt hx⟩

/-- The sum of squares under the root of `getScalar` is non-negative. -/
theorem sumsq_nonneg (v : vec α) : 0 ≤ v.x * v.x + v.y * v.y + v.z * v.z :=
  add_nonneg (add_nonneg (mul_self_nonneg _) (mul_self_nonneg _)) (mul_self_nonneg _)

/-- The magnitude is non-negative. -/
theorem getScalar_nonneg (sqrt : α → α) (hs : SqrtSpec sqrt) (v : vec α) :
    0 ≤ v.getScalar sqrt :=
  (hs _ (sumsq_nonneg v)).1

/-- The magnitude squares to the sum of squares. -/
theorem getScalar_mul_self (sqrt : α → α) (hs : SqrtSpec sqrt) (v : vec α) :
    v.getScalar sqrt * v.getScalar sqrt = v.x * v.x + v.y * v.y + v.z * v.z :=
  (hs _ (sumsq_nonneg v)).2

/-- Scaling a vector by a non-negative factor scales its magnitude by that factor. -/
theorem getScalar_multiplyWithDouble (sqrt : α → α) (hs : SqrtSpec sqrt) (v : vec α) (a : α)
    (ha : 0 ≤ a) : (v.multiplyWithDouble a).getScalar sqrt = a * v.getScalar sqrt := by
  have h1 := getScalar_nonneg sqrt hs (v.multiplyWithDouble a)
  have h2 : 0 ≤ a * v.getScalar sqrt := mul_nonneg ha (getScalar_nonneg sqrt hs v)
  have e1 := getScalar_mul_self sqrt hs (v.multiplyWithDouble a)
  have e2 := getScalar_mul_self sqrt hs v
  apply (mul_self_inj h1 h2).mp
  rw [e1]
  simp only [vec.multiplyWithDouble]
  calc v.x * a * (v.x * a) + v.y * a * (v.y * a) + v.z * a * (v.z * a)
      = a * a * (v.x * v.x + v.y * v.y + v.z * v.z) := by ring
    _ = a * a * (v.getScalar sqrt * v.getScalar sqrt) := by rw [e2]
    _ = a * v.getScalar sqrt * (a * v.getScalar sqrt) := by ring

/-- C4: for a ship mass `m ≥ 0` and positive `G`, `EarthMass`, `calculateGravityForce` is the
zero vector when the displacement has magnitude 0, and otherwise has the inverse-square
magnitude `G * EarthMass * m / |d| ^ 2`. -/
theorem calculateGravityForce_magnitude (sqrt : α → α) (hs : SqrtSpec sqrt) (G EarthMass : α)
    (hG : 0 < G) (hE : 0 < EarthMass) (distance : vec α) (shipMass : α) (hm : 0 ≤ shipMass) :
    (distance.getScalar sqrt = 0 →
      calculateGravityForce sqrt G EarthMass distance shipMass = ⟨0, 0, 0⟩) ∧
    (distance.getScalar sqrt ≠ 0 →
      (calculateGravityForce sqrt G EarthMass distance shipMass).getScalar sqrt
        = G * EarthMass * shipMass / distance.getScalar sqrt ^ 2) := by
  refine ⟨fun h => ?_, fun h => ?_⟩
  · unfold calculateGravityForce
    dsimp only
    rw [if_pos h]
  · unfold calculateGravityForce
    dsimp only
    rw [if_neg h]
    have hd : 0 < distance.getScalar sqrt :=
      lt_of_le_of_ne (getScalar_nonneg sqrt hs distance) (Ne.symm h)
    have ha : 0 ≤ G * EarthMass * shipMass / distance.getScalar sqrt ^ 3 :=
      div_nonneg (mul_nonneg (le_of_lt (mul_pos hG hE)) hm) (le_of_lt (pow_pos hd 3))
    rw [getScalar_multiplyWithDouble sqrt hs distance _ ha]
    field_simp
    ring

/-- Witness for C4 at `α = ℝ` with the real square root, displacement `(3, 4, 0)`, mass 2. -/
theorem calculateGravityForce_magnitude_witness :
    SqrtSpec Real.sqrt ∧ (0 : ℝ) < 6.67e-20 ∧ (0 : ℝ) < 5.97e24 ∧ (0 : ℝ) ≤ 2 ∧
    ((vec.getScalar Real.sqrt (⟨3, 4, 0⟩ : vec ℝ) = 0 →
      calculateGravityForce Real.sqrt (6.67e-20 : ℝ) 5.97e24 ⟨3, 4, 0⟩ 2 = ⟨0, 0, 0⟩) ∧
    (vec.getScalar Real.sqrt (⟨3, 4, 0⟩ : vec ℝ) ≠ 0 →
      (calculateGravityForce Real.sqrt (6.67e-20 : ℝ) 5.97e24 ⟨3, 4, 0⟩ 2).getScalar Real.sqrt
        = 6.67e-20 * 5.97e24 * 2 / vec.getScalar Real.sqrt (⟨3, 4, 0⟩ : vec ℝ) ^ 2)) :=
  ⟨sqrtSpec_real, by norm_num, by norm_num, by norm_num,
    calculateGravityForce_magnitude Real.sqrt sqrtSpec_real (6.67e-20 : ℝ) 5.97e24
      (by norm_num) (by norm_num) ⟨3, 4, 0⟩ 2 (by norm_num)⟩

/-- Over the reals, a vector along the first axis has its first component as magnitude. -/
theorem getScalar_real_axis (x : ℝ) (hx : 0 ≤ x) : vec.getScalar Real.sqrt ⟨x, 0, 0⟩ = x := by
  unfold vec.getScalar
  have e : x * x + 0 * 0 + 0 * 0 = x ^ 2 := by ring
  rw [e]
  exact Real.sqrt_sq hx

/-- Away from the origin `calculateGravityForce` is the displacement times
`G * EarthMass * shipMass / |d| ^ 3`, without a sign change. -/
theorem calculateGravityForce_eq (sqrt : α → α) (G EarthMass : α) (distance : vec α)
    (shipMass : α) (h : distance.getScalar sqrt ≠ 0) :
    calculateGravityForce sqrt G EarthMass distance shipMass
      = distance.multiplyWithDouble (G * EarthMass * shipMass / distance.getScalar sqrt ^ 3) := by
  unfold calculateGravityForce
  dsimp only
  rw [if_neg h]

/-- C5 (the code at the failing input): for the displacement `(7000, 0, 0)` and mass 1000,
`calculateGravityForce` returns the displacement times the positive factor
`G * EarthMass * 1000 / 7000 ^ 3`: the force points along the displacement, and it is not the
displacement times the negated factor. -/
theorem calculateGravityForce_along_displacement :
    calculateGravityForce Real.sqrt (6.67e-20 : ℝ) 5.97e24 ⟨7000, 0, 0⟩ 1000
      = vec.multiplyWithDouble ⟨7000, 0, 0⟩ (6.67e-20 * 5.97e24 * 1000 / 7000 ^ 3) ∧
    (0 : ℝ) < 6.67e-20 * 5.97e24 * 1000 / 7000 ^ 3 ∧
    0 < (calculateGravityForce Real.sqrt (6.67e-20 : ℝ) 5.97e24 ⟨7000, 0, 0⟩ 1000).x ∧
    calculateGravityForce Real.sqrt (6.67e-20 : ℝ) 5.97e24 ⟨7000, 0, 0⟩ 1000
      ≠ vec.multiplyWithDouble ⟨7000, 0, 0⟩ (-(6.67e-20 * 5.97e24 * 1000 / 7000 ^ 3)) := by
  have hs : vec.getScalar Real.sqrt (⟨7000, 0, 0⟩ : vec ℝ) = 7000 :=
    getScalar_real_axis 7000 (by norm_num)
  have e := calculateGravityForce_eq Real.sqrt (6.67e-20 : ℝ) 5.97e24 ⟨7000, 0, 0⟩ 1000
    (by rw [hs]; norm_num)
  rw [hs] at e
  rw [e]
  refine ⟨rfl, by norm_num, by norm_num [vec.multiplyWithDouble], ?_⟩
  intro h
  have hx := congrArg vec.x h
  norm_num [vec.multiplyWithDouble] at hx

/-- C6: `calculateTractiveForce` is the zero vector when the velocity has magnitude 0, and
otherwise is `(f * I) * (v / |v|)` componentwise, of magnitude `f * I` when `f * I ≥ 0`. -/
theorem calculateTractiveForce_spec (sqrt : α → α) (hs : SqrtSpec sqrt)
    (massLevel specificImpulse : α) (speed : vec α) :
    (speed.getScalar sqrt = 0 →
      calculateTractiveForce sqrt massLevel specificImpulse speed = ⟨0, 0, 0⟩) ∧
    (speed.getScalar sqrt ≠ 0 →
      calculateTractiveForce sqrt massLevel specificImpulse speed
        = ⟨massLevel * specificImpulse * (speed.x / speed.getScalar sqrt),
           massLevel * specificImpulse * (speed.y / speed.getScalar sqrt),
           massLevel * specificImpulse * (speed.z / speed.getScalar sqrt)⟩ ∧
      (0 ≤ massLevel * specificImpulse →
        (calculateTractiveForce sqrt massLevel specificImpulse speed).getScalar sqrt
          = massLevel * specificImpulse)) := by
  refine ⟨fun h => ?_, fun h => ?_⟩
  · unfold calculateTractiveForce
    dsimp only
    rw [if_pos h]
  · have hv : 0 < speed.getScalar sqrt :=
      lt_of_le_of_ne (getScalar_nonneg sqrt hs speed) (Ne.symm h)
    have e : calculateTractiveForce sqrt massLevel specificImpulse speed
        = speed.multiplyWithDouble (massLevel * specificImpulse / speed.getScalar sqrt) := by
      unfold calculateTractiveForce
      dsimp only
      rw [if_neg h]
    refine ⟨?_, fun hfi => ?_⟩
    · rw [e]
      simp only [vec.multiplyWithDouble, vec.mk.injEq]
      refine ⟨?_, ?_, ?_⟩ <;> ring
    · rw [e, getScalar_multiplyWithDouble sqrt hs speed _ (div_nonneg hfi (le_of_lt hv))]
      field_simp

/-- Witness for C6 at `α = ℝ` with the real square root, `f = 2`, `I = 3`, `v = (3, 4, 0)`. -/
theorem calculateTractiveForce_spec_witness :
    SqrtSpec Real.sqrt ∧
    ((vec.getScalar Real.sqrt (⟨3, 4, 0⟩ : vec ℝ) = 0 →
      calculateTractiveForce Real.sqrt (2 : ℝ) 3 ⟨3, 4, 0⟩ = ⟨0, 0, 0⟩) ∧
    (vec.getScalar Real.sqrt (⟨3, 4, 0⟩ : vec ℝ) ≠ 0 →
      calculateTractiveForce Real.sqrt (2 : ℝ) 3 ⟨3, 4, 0⟩
        = ⟨2 * 3 * (3 / vec.getScalar Real.sqrt (⟨3, 4, 0⟩ : vec ℝ)),
           2 * 3 * (4 / vec.getScalar Real.sqrt (⟨3, 4, 0⟩ : vec ℝ)),
           2 * 3 * (0 / vec.getScalar Real.sqrt (⟨3, 4, 0⟩ : vec ℝ))⟩ ∧
      ((0 : ℝ) ≤ 2 * 3 →
        (calculateTractiveForce Real.sqrt (2 : ℝ) 3 ⟨3, 4, 0⟩).getScalar Real.sqrt = 2 * 3))) :=
  ⟨sqrtSpec_real, calculateTractiveForce_spec Real.sqrt sqrtSpec_real (2 : ℝ) 3 ⟨3, 4, 0⟩⟩

end Forces

section Driver

variable {α : Type} [LinearOrderedField α]

/-- What `fuelStep` does to the fuel, the total mass and the counters, whenever it returns. -/
theorem fuelStep_fuel (W : World α) (P : ShipParams α) (Q : Quants α) (level : α)
    (s s1 : LoopState α) (h : fuelStep W P Q level s = Except.ok s1) :
    (level * Q.quantSizeOfSec ≤ s.fuel →
      s1.fuel = s.fuel - level * Q.quantSizeOfSec ∧ s1.m = s.m - level * Q.quantSizeOfSec) ∧
    (¬ level * Q.quantSizeOfSec ≤ s.fuel → s1.fuel = 0 ∧ s1.m = s.m - s.fuel) := by
  unfold fuelStep at h
  by_cases hc : level * Q.quantSizeOfSec > s.fuel
  · rw [if_pos hc] at h
    dsimp only at h
    split at h
    · cases h
    · split at h
      · cases h
      · cases h
        exact ⟨fun hle => absurd hc (not_lt.mpr hle), fun _ => ⟨rfl, rfl⟩⟩
  · rw [if_neg hc] at h
    split at h
    · cases h
    · cases h
      exact ⟨fun _ => ⟨rfl, rfl⟩, fun hn => absurd (not_lt.mp hc) hn⟩

/-- The end of the loop body leaves the fuel and the total mass alone. -/
theorem positionStep_fuel (W : World α) (P : ShipParams α) (Q : Quants α)
    (s : LoopState α) (o : Outcome α) (h : positionStep W P Q s = Except.ok o) :
    o.state.fuel = s.fuel ∧ o.state.m = s.m := by
  unfold positionStep at h
  dsimp only at h
  split_ifs at h
  · cases h; exact ⟨rfl, rfl⟩
  · cases h; exact ⟨rfl, rfl⟩
  · split at h
    · cases h
    · cases h; exact ⟨rfl, rfl⟩
  · cases h; exact ⟨rfl, rfl⟩

/-- A pass through the loop body that returns has read a command `c = flightPlan[j]` and has
run `fuelStep` with its impulse and `positionStep` after it. -/
theorem loopBody_ok (W : World α) (P : ShipParams α) (Q : Quants α)
    (s : LoopState α) (o : Outcome α) (h : loopBody W P Q s = Except.ok o) :
    ∃ c s0 s1, P.flightPlan[s.j]? = some c ∧ s0.fuel = s.fuel ∧ s0.m = s.m ∧
      fuelStep W P Q c.impulseValue s0 = Except.ok s1 ∧
      positionStep W P Q s1 = Except.ok o := by
  unfold loopBody at h
  split at h
  · cases h
  · rename_i c hc
    dsimp only at h
    split at h
    · cases h
    · split at h
      · cases h
      · rename_i s1 hs1
        refine ⟨c, _, s1, hc, ?_, ?_, hs1, h⟩ <;> rfl

/-- C7: across a pass through the loop body that completes without error, with `c` the
active command: if `c.impulseValue * dt ≤ fuel` the fuel afterwards is
`fuel - c.impulseValue * dt`, otherwise it is `0`. -/
theorem loopBody_fuel (W : World α) (P : ShipParams α) (Q : Quants α)
    (s : LoopState α) (o : Outcome α) (c : FlightCommand α)
    (hc : P.flightPlan[s.j]? = some c) (h : loopBody W P Q s = Except.ok o) :
    (c.impulseValue * Q.quantSizeOfSec ≤ s.fuel →
      o.state.fuel = s.fuel - c.impulseValue * Q.quantSizeOfSec) ∧
    (¬ c.impulseValue * Q.quantSizeOfSec ≤ s.fuel → o.state.fuel = 0) := by
  obtain ⟨c1, s0, s1, hc1, hf0, _, hfs, hps⟩ := loopBody_ok W P Q s o h
  rw [hc] at hc1
  cases hc1
  have h1 := fuelStep_fuel W P Q c.impulseValue s0 s1 hfs
  have h2 := positionStep_fuel W P Q s1 o hps
  rw [hf0] at h1
  refine ⟨fun hle => ?_, fun hn => ?_⟩
  · rw [h2.1, (h1.1 hle).1]
  · rw [h2.1, (h1.2 hn).1]

/-- A pass that ends in `break` leaves `height` at the planet radius. -/
theorem positionStep_stop_height (W : World α) (P : ShipParams α) (Q : Quants α)
    (s s1 : LoopState α) (h : positionStep W P Q s = Except.ok (Outcome.stop s1)) :
    s1.height = W.EarthRadius := by
  unfold positionStep at h
  dsimp only at h
  split_ifs at h
  · cases h; rfl
  · cases h; rfl
  · split at h
    · cases h
    · cases h
  · cases h

/-- The loop run for `n + 1` passes is the loop run for `n` passes followed by one more
pass. -/
theorem loop_succ (W : World α) (P : ShipParams α) (Q : Quants α) (n : Nat) (s : LoopState α) :
    loop W P Q (n + 1) s =
      match loop W P Q n s with
      | Except.error e => Except.error e
      | Except.ok s1 => loop W P Q 1 s1 := by
  induction n generalizing s with
  | zero => rfl
  | succ n ih =>
    rw [loop]
    by_cases hc : s.i < Q.numberOfQuants ∧ s.height > W.EarthRadius
    · rw [if_pos hc]
      conv_rhs => rw [loop, if_pos hc]
      cases hb : loopBody W P Q s with
      | error e => rfl
      | ok o =>
        cases o with
        | next s1 =>
          dsimp only
          exact ih _
        | stop s1 =>
          dsimp only
          obtain ⟨c, s0, s2, _, _, _, _, hps⟩ := loopBody_ok W P Q s _ hb
          have hh := positionStep_stop_height W P Q s2 s1 hps
          rw [loop, if_neg]
          rw [hh]
          exact fun hn => lt_irrefl _ hn.2
    · rw [if_neg hc]
      conv_rhs => rw [loop, if_neg hc]
      dsimp only
      rw [loop, if_neg hc]

/-- The fuel branch leaves the loop counter alone. -/
theorem fuelStep_i (W : World α) (P : ShipParams α) (Q : Quants α) (level : α)
    (s s1 : LoopState α) (h : fuelStep W P Q level s = Except.ok s1) : s1.i = s.i := by
  unfold fuelStep at h
  split_ifs at h
  · dsimp only at h
    split at h
    · cases h
    · split at h
      · cases h
      · cases h; rfl
  · split at h
    · cases h
    · cases h; rfl

/-- The end of the loop body leaves the loop counter alone. -/
theorem positionStep_i (W : World α) (P : ShipParams α) (Q : Quants α)
    (s : LoopState α) (o : Outcome α) (h : positionStep W P Q s = Except.ok o) :
    o.state.i = s.i := by
  unfold positionStep at h
  dsimp only at h
  split_ifs at h
  · cases h; rfl
  · cases h; rfl
  · split at h
    · cases h
    · cases h; rfl
  · cases h; rfl

/-- A pass through the loop body leaves the loop counter alone (`i++` comes after it). -/
theorem loopBody_i (W : World α) (P : ShipParams α) (Q : Quants α)
    (s : LoopState α) (o : Outcome α) (h : loopBody W P Q s = Except.ok o) :
    o.state.i = s.i := by
  unfold loopBody at h
  split at h
  · cases h
  · dsimp only at h
    split at h
    · cases h
    · split at h
      · cases h
      · rename_i s1 hs1
        rw [positionStep_i W P Q s1 o h, fuelStep_i W P Q _ _ s1 hs1]

/-- The bound on the number of passes is enough as soon as it reaches
`numberOfQuants - i`: a larger bound gives the same final state. In particular the bound
`numberOfQuants` used by `computeFlightPlan` from `i = 0` is enough. -/
theorem loop_bound_enough (W : World α) (P : ShipParams α) (Q : Quants α) (n k : Nat) :
    ∀ s : LoopState α, Q.numberOfQuants ≤ s.i + n →
      loop W P Q (n + k) s = loop W P Q n s := by
  induction n with
  | zero =>
    intro s hs
    cases k with
    | zero => rfl
    | succ k =>
      have hc : ¬ (s.i < Q.numberOfQuants ∧ s.height > W.EarthRadius) :=
        fun hc => absurd hc.1 (not_lt.mpr (by simpa using hs))
      have e0 : loop W P Q 0 s = Except.ok s := rfl
      rw [Nat.zero_add, e0, loop, if_neg hc]
  | succ n ih =>
    intro s hs
    have e : n + 1 + k = (n + k) + 1 := by omega
    rw [e, loop, loop]
    by_cases hc : s.i < Q.numberOfQuants ∧ s.height > W.EarthRadius
    · rw [if_pos hc, if_pos hc]
      cases hb : loopBody W P Q s with
      | error e => rfl
      | ok o =>
        cases o with
        | stop s1 => rfl
        | next s1 =>
          dsimp only
          have hi : s1.i = s.i := loopBody_i W P Q s _ hb
          apply ih
          dsimp only
          omega
    · rw [if_neg hc, if_neg hc]

/-- One pass of the loop keeps `m = shipMass + fuel` and `fuel ≥ 0`, and does not raise the
fuel, when the quant size is positive and the impulses are non-negative. -/
theorem loop_one_fuel (W : World α) (P : ShipParams α) (Q : Quants α)
    (hdt : 0 < Q.quantSizeOfSec) (hl : ∀ c ∈ P.flightPlan, 0 ≤ c.impulseValue)
    (s s1 : LoopState α) (hm : s.m = P.shipMass + s.fuel) (hf : 0 ≤ s.fuel)
    (h : loop W P Q 1 s = Except.ok s1) :
    s1.m = P.shipMass + s1.fuel ∧ 0 ≤ s1.fuel ∧ s1.fuel ≤ s.fuel := by
  have key : ∀ o, loopBody W P Q s = Except.ok o →
      o.state.m = P.shipMass + o.state.fuel ∧ 0 ≤ o.state.fuel ∧ o.state.fuel ≤ s.fuel := by
    intro o hb
    obtain ⟨c, s0, s2, hc, hf0, hm0, hfs, hps⟩ := loopBody_ok W P Q s o hb
    have hlev : 0 ≤ c.impulseValue * Q.quantSizeOfSec :=
      mul_nonneg (hl c (List.getElem?_mem hc)) (le_of_lt hdt)
    have h1 := fuelStep_fuel W P Q c.impulseValue s0 s2 hfs
    have h2 := positionStep_fuel W P Q s2 o hps
    rw [hf0, hm0] at h1
    rw [h2.1, h2.2]
    by_cases hle : c.impulseValue * Q.quantSizeOfSec ≤ s.fuel
    · obtain ⟨e1, e2⟩ := h1.1 hle
      rw [e1, e2, hm]
      refine ⟨by ring, by linarith, by linarith⟩
    · obtain ⟨e1, e2⟩ := h1.2 hle
      rw [e1, e2, hm]
      refine ⟨by ring, le_refl 0, hf⟩
  rw [loop] at h
  by_cases hc : s.i < Q.numberOfQuants ∧ s.height > W.EarthRadius
  · rw [if_pos hc] at h
    cases hb : loopBody W P Q s with
    | error e => rw [hb] at h; cases h
    | ok o =>
      rw [hb] at h
      cases o with
      | next s2 =>
        dsimp only at h
        rw [loop] at h
        cases h
        exact key _ hb
      | stop s2 =>
        dsimp only at h
        cases h
        exact key _ hb
  · rw [if_neg hc] at h
    cases h
    exact ⟨hm, hf, le_refl _⟩

/-- The loop keeps `m = shipMass + fuel` and `fuel ≥ 0` over any number of passes. -/
theorem loop_fuel_inv (W : World α) (P : ShipParams α) (Q : Quants α)
    (hdt : 0 < Q.quantSizeOfSec) (hl : ∀ c ∈ P.flightPlan, 0 ≤ c.impulseValue)
    (s0 : LoopState α) (hm : s0.m = P.shipMass + s0.fuel) (hf : 0 ≤ s0.fuel) (k : Nat) :
    ∀ s, loop W P Q k s0 = Except.ok s → s.m = P.shipMass + s.fuel ∧ 0 ≤ s.fuel := by
  induction k with
  | zero =>
    intro s h
    rw [loop] at h
    cases h
    exact ⟨hm, hf⟩
  | succ k ih =>
    intro s h
    rw [loop_succ] at h
    cases hk : loop W P Q k s0 with
    | error e => rw [hk] at h; cases h
    | ok s1 =>
      rw [hk] at h
      dsimp only at h
      obtain ⟨a, b⟩ := ih s1 hk
      obtain ⟨c, d, _⟩ := loop_one_fuel W P Q hdt hl s1 s a b h
      exact ⟨c, d⟩

/-- C8: in a run of `computeFlightPlan` with initial fuel `≥ 0`, quant size `> 0` and all
impulses `≥ 0`, the state `s` after any number `k` of passes of the loop (`k = 0`: before the
first) has `m = shipMass + fuel` and `fuel ≥ 0`, and the fuel after one more pass is not
greater than `s.fuel`. -/
theorem computeFlightPlan_fuel_invariant (W : World α) (I : ShipPosition α) (P : ShipParams α)
    (Q : Quants α) (hfuel : 0 ≤ P.fuelMass) (hdt : 0 < Q.quantSizeOfSec)
    (hl : ∀ c ∈ P.flightPlan, 0 ≤ c.impulseValue)
    (s0 : LoopState α) (h0 : initialState W I P Q = Except.ok s0)
    (k : Nat) (s : LoopState α) (hk : loop W P Q k s0 = Except.ok s) :
    s.m = P.shipMass + s.fuel ∧ 0 ≤ s.fuel ∧
      ∀ s1, loop W P Q (k + 1) s0 = Except.ok s1 → s1.fuel ≤ s.fuel := by
  have hinit : s0.m = P.shipMass + s0.fuel ∧ 0 ≤ s0.fuel := by
    unfold initialState at h0
    split at h0
    · cases h0
    · cases h0
      exact ⟨add_comm _ _, hfuel⟩
  obtain ⟨a, b⟩ := loop_fuel_inv W P Q hdt hl s0 hinit.1 hinit.2 k s hk
  refine ⟨a, b, fun s1 h1 => ?_⟩
  rw [loop_succ, hk] at h1
  dsimp only at h1
  exact (loop_one_fuel W P Q hdt hl s s1 a b h1).2.2

/-- In the ground-crossing branch the computed `landingTime` is negative, whatever `cosA`
is: for `0 ≤ height < EarthRadius` and a non-zero velocity. -/
theorem landingTime_neg (sqrt : α → α) (hs : SqrtSpec sqrt) (EarthRadius : α)
    (currentPosition currentSpeed : vec α) (quantSizeOfSec height : α)
    (h0 : 0 ≤ height) (hR : height < EarthRadius) (hv : currentSpeed.getScalar sqrt ≠ 0) :
    landingTime sqrt EarthRadius currentPosition currentSpeed quantSizeOfSec height < 0 := by
  unfold landingTime
  dsimp only
  generalize landingCosA sqrt currentPosition currentSpeed quantSizeOfSec height = cosA
  have hvpos : 0 < currentSpeed.getScalar sqrt :=
    lt_of_le_of_ne (getScalar_nonneg sqrt hs currentSpeed) (Ne.symm hv)
  have hgap : 0 < EarthRadius ^ 2 - height ^ 2 := by nlinarith
  have hD : 0 ≤ height ^ 2 * cosA ^ 2 + EarthRadius ^ 2 - height ^ 2 := by
    have : 0 ≤ height ^ 2 * cosA ^ 2 := by positivity
    linarith
  obtain ⟨hr0, hr2⟩ := hs _ hD
  have hlt : height * cosA <
      sqrt (height ^ 2 * cosA ^ 2 + EarthRadius ^ 2 - height ^ 2) := by
    by_contra hcon
    have hle := not_lt.mp hcon
    have := mul_self_le_mul_self hr0 hle
    rw [hr2] at this
    nlinarith
  exact div_neg_of_neg_of_pos (sub_neg.mpr hlt) hvpos

end Driver

section Descent

/-- Over the reals, a vector along the first axis has the absolute value of its first
component as magnitude. -/
theorem getScalar_real_axis_abs (x : ℝ) : vec.getScalar Real.sqrt ⟨x, 0, 0⟩ = |x| := by
  unfold vec.getScalar
  have e : x * x + 0 * 0 + 0 * 0 = x ^ 2 := by ring
  rw [e]
  exact Real.sqrt_sq_eq_abs x

/-- The sample descent enters the loop in `descentState`. -/
theorem descent_initialState :
    initialState (sampleWorld Real.sqrt Real.exp) descentStart descentParams descentQuants
      = Except.ok descentState := by
  norm_num [initialState, sampleWorld, descentStart, descentParams, descentQuants, descentState,
    getScalar_real_axis_abs, abs_div, Nat.abs_ofNat]

/-- The first pass of the sample descent takes the ground-crossing branch and leaves the loop
in `descentLanded`. -/
theorem descent_loopBody :
    loopBody (sampleWorld Real.sqrt Real.exp) descentParams descentQuants descentState
      = Except.ok (Outcome.stop (descentLanded Real.sqrt)) := by
  norm_num [loopBody, fuelStep, positionStep, sampleWorld, descentParams, descentQuants,
    descentState, descentLanded, descentLanding, descentSpeed, descentBelow,
    getScalar_real_axis_abs, abs_div, abs_neg, Nat.abs_ofNat, abs_mul, speed, airDensity,
    temperature, calculateTractiveForce, vec.multiplyWithDouble, speedHeating,
    calculateAerodynamicForce, calculateAngularVelocity, calculateGravityForce, cross, advance,
    setSpeed, setPosition]

/-- The loop of the sample descent, run for one pass. -/
theorem descent_loop :
    loop (sampleWorld Real.sqrt Real.exp) descentParams descentQuants 1 descentState
      = Except.ok (descentLanded Real.sqrt) := by
  rw [loop, if_pos, descent_loopBody]
  norm_num [descentQuants, descentState, sampleWorld]

/-- The output of `computeFlightPlan` on the sample descent: one sample, holding the landing
position of the ground-crossing branch and the velocity of the pass. -/
theorem descent_computeFlightPlan :
    computeFlightPlan (sampleWorld Real.sqrt Real.exp) descentStart descentParams descentQuants
      = Except.ok [⟨descentLanding Real.sqrt, descentSpeed⟩] := by
  unfold computeFlightPlan
  rw [descent_initialState]
  dsimp only
  have e : (descentQuants : Quants ℝ).numberOfQuants = 1 := rfl
  rw [e, descent_loop]
  have hr : List.range 1 = [0] := rfl
  norm_num [descentLanded, sampleWorld, padding, setPosition, hr]

/-- The magnitude of the velocity of the sample descent. -/
theorem descent_speed_magnitude :
    vec.getScalar Real.sqrt (descentSpeed : vec ℝ) = 31157109779 / 7211899935 := by
  norm_num [descentSpeed, getScalar_real_axis_abs, abs_div, abs_neg, Nat.abs_ofNat]

/-- The post-step distance from the centre on the sample descent. -/
theorem descent_below_magnitude :
    vec.getScalar Real.sqrt (descentBelow : vec ℝ) = 88649775969047 / 14423799870 := by
  norm_num [descentBelow, getScalar_real_axis_abs, abs_div, abs_neg, Nat.abs_ofNat]

/-- The post-step position of the sample descent is the start advanced by one quant. -/
theorem descent_below_eq :
    advance (descentStart : ShipPosition ℝ).position descentSpeed 100 = descentBelow := by
  norm_num [advance, descentStart, descentSpeed, descentBelow]

/-- The value of `cosA` on the sample descent: with `height` and
`currentPosition.getScalar()` the same number, it is `|way| / (2 * height)`. -/
theorem descent_cosA :
    landingCosA Real.sqrt (descentBelow : vec ℝ) descentSpeed 100 (88649775969047 / 14423799870)
      = 3115710977900 / 88649775969047 := by
  norm_num [landingCosA, descentSpeed, descentBelow, getScalar_real_axis_abs, abs_div, abs_neg,
    Nat.abs_ofNat, abs_mul]

/-- The landing position computed on the sample descent lies more than 6400 from the centre,
above the surface at 6378.1. -/
theorem descent_landing_magnitude : vec.getScalar Real.sqrt (descentLanding Real.sqrt) > 6400 := by
  unfold descentLanding landingPosition landingTime
  dsimp only
  rw [descent_cosA, descent_speed_magnitude]
  have hS : (500 : ℝ) < Real.sqrt ((88649775969047 / 14423799870) ^ 2 *
      (3115710977900 / 88649775969047) ^ 2 + 6378.1 ^ 2
        - (88649775969047 / 14423799870) ^ 2) := by
    rw [Real.lt_sqrt (by norm_num)]
    norm_num
  generalize Real.sqrt ((88649775969047 / 14423799870) ^ 2 *
      (3115710977900 / 88649775969047) ^ 2 + 6378.1 ^ 2
        - (88649775969047 / 14423799870) ^ 2) = S at hS ⊢
  simp only [advance, descentBelow, descentSpeed, zero_mul, add_zero, getScalar_real_axis_abs]
  refine lt_of_lt_of_le ?_ (le_abs_self _)
  linarith

/-- Witness for C7: the first pass of the sample descent, with fuel 500 and the command
burning `2 * 100`. -/
theorem loopBody_fuel_witness :
    (descentParams : ShipParams ℝ).flightPlan[(descentState : LoopState ℝ).j]?
      = some ⟨2, ⟨0, 0, 0⟩, 1000⟩ ∧
    loopBody (sampleWorld Real.sqrt Real.exp) descentParams descentQuants descentState
      = Except.ok (Outcome.stop (descentLanded Real.sqrt)) ∧
    (((2 : ℝ) * 100 ≤ 500 → (descentLanded Real.sqrt).fuel = 500 - 2 * 100) ∧
     (¬ (2 : ℝ) * 100 ≤ 500 → (descentLanded Real.sqrt).fuel = 0)) :=
  ⟨rfl, descent_loopBody,
    loopBody_fuel (sampleWorld Real.sqrt Real.exp) descentParams descentQuants descentState
      (Outcome.stop (descentLanded Real.sqrt)) ⟨2, ⟨0, 0, 0⟩, 1000⟩ rfl descent_loopBody⟩

/-- Witness for C8: the sample descent after its first pass. -/
theorem computeFlightPlan_fuel_invariant_witness :
    (0 : ℝ) ≤ (descentParams : ShipParams ℝ).fuelMass ∧
    (0 : ℝ) < (descentQuants : Quants ℝ).quantSizeOfSec ∧
    (∀ c ∈ (descentParams : ShipParams ℝ).flightPlan, 0 ≤ c.impulseValue) ∧
    initialState (sampleWorld Real.sqrt Real.exp) descentStart descentParams descentQuants
      = Except.ok descentState ∧
    loop (sampleWorld Real.sqrt Real.exp) descentParams descentQuants 1 descentState
      = Except.ok (descentLanded Real.sqrt) ∧
    ((descentLanded Real.sqrt).m
        = (descentParams : ShipParams ℝ).shipMass + (descentLanded Real.sqrt).fuel ∧
      0 ≤ (descentLanded Real.sqrt).fuel ∧
      ∀ s1, loop (sampleWorld Real.sqrt Real.exp) descentParams descentQuants (1 + 1)
          descentState = Except.ok s1 → s1.fuel ≤ (descentLanded Real.sqrt).fuel) :=
  have hf : (0 : ℝ) ≤ (descentParams : ShipParams ℝ).fuelMass := by norm_num [descentParams]
  have hdt : (0 : ℝ) < (descentQuants : Quants ℝ).quantSizeOfSec := by norm_num [descentQuants]
  have hl : ∀ c ∈ (descentParams : ShipParams ℝ).flightPlan, 0 ≤ c.impulseValue := by
    intro c hc
    simp only [descentParams, List.mem_singleton] at hc
    rw [hc]
    norm_num
  ⟨hf, hdt, hl, descent_initialState, descent_loop,
    computeFlightPlan_fuel_invariant (sampleWorld Real.sqrt Real.exp) descentStart descentParams
      descentQuants hf hdt hl descentState descent_initialState 1 (descentLanded Real.sqrt)
      descent_loop⟩

/-- C9 (the code at the failing input): on the sample descent the pass starts 6578.1 from the
centre, above the surface at 6378.1, and ends below it, so the ground-crossing branch runs; the
landing position it writes to the output lies more than 6400 from the centre, not on the
surface. -/
theorem computeFlightPlan_landing_off_surface :
    ∃ r : ReturnValues ℝ,
      computeFlightPlan (sampleWorld Real.sqrt Real.exp) descentStart descentParams descentQuants
        = Except.ok [r] ∧
      (sampleWorld Real.sqrt Real.exp).EarthRadius
        < vec.getScalar Real.sqrt (descentStart : ShipPosition ℝ).position ∧
      vec.getScalar Real.sqrt (advance (descentStart : ShipPosition ℝ).position r.speed 100)
        < (sampleWorld Real.sqrt Real.exp).EarthRadius ∧
      r.position = landingPosition Real.sqrt (sampleWorld Real.sqrt Real.exp).EarthRadius
        (advance (descentStart : ShipPosition ℝ).position r.speed 100) r.speed 100
        (vec.getScalar Real.sqrt (advance (descentStart : ShipPosition ℝ).position r.speed 100)) ∧
      vec.getScalar Real.sqrt r.position > 6400 ∧
      vec.getScalar Real.sqrt r.position ≠ (sampleWorld Real.sqrt Real.exp).EarthRadius := by
  refine ⟨⟨descentLanding Real.sqrt, descentSpeed⟩, descent_computeFlightPlan, ?_, ?_, ?_,
    descent_landing_magnitude, ?_⟩
  · norm_num [sampleWorld, descentStart, getScalar_real_axis_abs, abs_div, Nat.abs_ofNat]
  · dsimp only
    rw [descent_below_eq, descent_below_magnitude]
    norm_num [sampleWorld]
  · dsimp only
    rw [descent_below_eq, descent_below_magnitude]
    rfl
  · have h := descent_landing_magnitude
    dsimp only
    intro e
    rw [e] at h
    norm_num [sampleWorld] at h

/-- C10 (the code at the failing input): on the sample descent, with a non-zero velocity and
the quant size 100, the ground-crossing branch runs and the `landingTime` it computes, by
which it moves the position to the one it writes to the output, is negative. -/
theorem computeFlightPlan_landingTime_negative :
    ∃ r : ReturnValues ℝ,
      computeFlightPlan (sampleWorld Real.sqrt Real.exp) descentStart descentParams descentQuants
        = Except.ok [r] ∧
      (sampleWorld Real.sqrt Real.exp).EarthRadius
        < vec.getScalar Real.sqrt (descentStart : ShipPosition ℝ).position ∧
      vec.getScalar Real.sqrt (advance (descentStart : ShipPosition ℝ).position r.speed 100)
        < (sampleWorld Real.sqrt Real.exp).EarthRadius ∧
      vec.getScalar Real.sqrt r.speed ≠ 0 ∧
      r.position = advance (advance (descentStart : ShipPosition ℝ).position r.speed 100) r.speed
        (landingTime Real.sqrt (sampleWorld Real.sqrt Real.exp).EarthRadius
          (advance (descentStart : ShipPosition ℝ).position r.speed 100) r.speed 100
          (vec.getScalar Real.sqrt
            (advance (descentStart : ShipPosition ℝ).position r.speed 100))) ∧
      landingTime Real.sqrt (sampleWorld Real.sqrt Real.exp).EarthRadius
          (advance (descentStart : ShipPosition ℝ).position r.speed 100) r.speed 100
          (vec.getScalar Real.sqrt
            (advance (descentStart : ShipPosition ℝ).position r.speed 100)) < 0 := by
  have hv : vec.getScalar Real.sqrt (descentSpeed : vec ℝ) ≠ 0 := by
    rw [descent_speed_magnitude]
    norm_num
  have hbelow : vec.getScalar Real.sqrt
      (advance (descentStart : ShipPosition ℝ).position descentSpeed 100)
        < (sampleWorld Real.sqrt Real.exp).EarthRadius := by
    rw [descent_below_eq, descent_below_magnitude]
    norm_num [sampleWorld]
  refine ⟨⟨descentLanding Real.sqrt, descentSpeed⟩, descent_computeFlightPlan, ?_, hbelow, hv,
    ?_, ?_⟩
  · norm_num [sampleWorld, descentStart, getScalar_real_axis_abs, abs_div, Nat.abs_ofNat]
  · dsimp only
    rw [descent_below_eq, descent_below_magnitude]
    rfl
  · exact landingTime_neg Real.sqrt sqrtSpec_real _ _ _ _ _
      (getScalar_nonneg Real.sqrt sqrtSpec_real _) hbelow hv

end Descent

section Rotational

variable {α : Type} [LinearOrderedField α]

/-- C20: on each axis, `calculateAngularVelocity` returns the previous component when the
moment of inertia about the axis is zero, and otherwise the previous component plus
`torque * dt / inertia`, the torque being `multiply` of the lever arm
`(length/2, length/2, length/2)` with the component-wise sum of the three forces. -/
theorem calculateAngularVelocity_axes (multiply : vec α → vec α → vec α)
    (gravityForce aerodynamicForce tractiveForce : vec α) (moment : Rotation α)
    (quantSizeOfSec length : α) (previousAngularVelocity : vec α) :
    ((moment.rotationAroundX = 0 →
        (calculateAngularVelocity multiply gravityForce aerodynamicForce tractiveForce moment
          quantSizeOfSec length previousAngularVelocity).x = previousAngularVelocity.x) ∧
      (moment.rotationAroundX ≠ 0 →
        (calculateAngularVelocity multiply gravityForce aerodynamicForce tractiveForce moment
          quantSizeOfSec length previousAngularVelocity).x = previousAngularVelocity.x +
            (multiply ⟨length / 2, length / 2, length / 2⟩
              ⟨gravityForce.x + aerodynamicForce.x + tractiveForce.x,
               gravityForce.y + aerodynamicForce.y + tractiveForce.y,
               gravityForce.z + aerodynamicForce.z + tractiveForce.z⟩).x * quantSizeOfSec /
              moment.rotationAroundX)) ∧
    ((moment.rotationAroundY = 0 →
        (calculateAngularVelocity multiply gravityForce aerodynamicForce tractiveForce moment
          quantSizeOfSec length previousAngularVelocity).y = previousAngularVelocity.y) ∧
      (moment.rotationAroundY ≠ 0 →
        (calculateAngularVelocity multiply gravityForce aerodynamicForce tractiveForce moment
          quantSizeOfSec length previousAngularVelocity).y = previousAngularVelocity.y +
            (multiply ⟨length / 2, length / 2, length / 2⟩
              ⟨gravityForce.x + aerodynamicForce.x + tractiveForce.x,
               gravityForce.y + aerodynamicForce.y + tractiveForce.y,
               gravityForce.z + aerodynamicForce.z + tractiveForce.z⟩).y * quantSizeOfSec /
              moment.rotationAroundY)) ∧
    ((moment.rotationAroundZ = 0 →
        (calculateAngularVelocity multiply gravityForce aerodynamicForce tractiveForce moment
          quantSizeOfSec length previousAngularVelocity).z = previousAngularVelocity.z) ∧
      (moment.rotationAroundZ ≠ 0 →
        (calculateAngularVelocity multiply gravityForce aerodynamicForce tractiveForce moment
          quantSizeOfSec length previousAngularVelocity).z = previousAngularVelocity.z +
            (multiply ⟨length / 2, length / 2, length / 2⟩
              ⟨gravityForce.x + aerodynamicForce.x + tractiveForce.x,
               gravityForce.y + aerodynamicForce.y + tractiveForce.y,
               gravityForce.z + aerodynamicForce.z + tractiveForce.z⟩).z * quantSizeOfSec /
              moment.rotationAroundZ)) := by
  unfold calculateAngularVelocity
  dsimp only
  refine ⟨?_, ?_, ?_⟩
  · constructor
    · intro hx
      rw [if_neg (not_not.mpr hx), hx, add_zero]
    · intro hx
      rw [if_pos hx]
  · constructor
    · intro hy
      rw [if_neg (not_not.mpr hy), hy, add_zero]
    · intro hy
      rw [if_pos hy]
  · constructor
    · intro hz
      rw [if_neg (not_not.mpr hz), hz, add_zero]
    · intro hz
      rw [if_pos hz]

/-- Witness for C20 at `α = ℚ` with the cross product: the axis `x` locked
(inertia 0), the axes `y` and `z` with the inertias 2 and 4. -/
theorem calculateAngularVelocity_axes_witness :
    (calculateAngularVelocity cross (⟨1, 2, 3⟩ : vec ℚ) ⟨0, 1, 0⟩ ⟨2, 0, 1⟩ ⟨0, 2, 4⟩ 10 6
        ⟨5, 6, 7⟩).x = 5 ∧
    (calculateAngularVelocity cross (⟨1, 2, 3⟩ : vec ℚ) ⟨0, 1, 0⟩ ⟨2, 0, 1⟩ ⟨0, 2, 4⟩ 10 6
        ⟨5, 6, 7⟩).y = 6 + (cross ⟨6 / 2, 6 / 2, 6 / 2⟩
          (⟨1 + 0 + 2, 2 + 1 + 0, 3 + 0 + 1⟩ : vec ℚ)).y * 10 / 2 ∧
    (calculateAngularVelocity cross (⟨1, 2, 3⟩ : vec ℚ) ⟨0, 1, 0⟩ ⟨2, 0, 1⟩ ⟨0, 2, 4⟩ 10 6
        ⟨5, 6, 7⟩).z = 7 + (cross ⟨6 / 2, 6 / 2, 6 / 2⟩
          (⟨1 + 0 + 2, 2 + 1 + 0, 3 + 0 + 1⟩ : vec ℚ)).z * 10 / 4 :=
  ⟨(calculateAngularVelocity_axes cross (⟨1, 2, 3⟩ : vec ℚ) ⟨0, 1, 0⟩ ⟨2, 0, 1⟩ ⟨0, 2, 4⟩ 10 6
      ⟨5, 6, 7⟩).1.1 rfl,
   (calculateAngularVelocity_axes cross (⟨1, 2, 3⟩ : vec ℚ) ⟨0, 1, 0⟩ ⟨2, 0, 1⟩ ⟨0, 2, 4⟩ 10 6
      ⟨5, 6, 7⟩).2.1.2 (by norm_num),
   (calculateAngularVelocity_axes cross (⟨1, 2, 3⟩ : vec ℚ) ⟨0, 1, 0⟩ ⟨2, 0, 1⟩ ⟨0, 2, 4⟩ 10 6
      ⟨5, 6, 7⟩).2.2.2 (by norm_num)⟩

end Rotational

section Integrator

variable {α : Type} [LinearOrderedField α]

/-- With a non-zero total mass and a non-positive quant, `speed` returns the previous
velocity at once. -/
theorem speed_of_nonpos (W : World α) (previousSpeed position orientation : vec α)
    (fuelConsumption mShip mFuel : α) (moment : Rotation α)
    (specificImpulse size quantSizeOfSec maxOverload maxHeating : α)
    (hm : mShip + mFuel ≠ 0) (hdt : quantSizeOfSec ≤ 0) :
    speed W previousSpeed position orientation fuelConsumption mShip mFuel moment
      specificImpulse size quantSizeOfSec maxOverload maxHeating = Except.ok previousSpeed := by
  unfold speed
  dsimp only
  rw [if_pos hm, if_neg (not_lt.mpr hdt)]

/-- With a non-zero total mass, a positive quant and the air density `rho` at `H`, `speed`
is the overload test on the magnitude of the net acceleration followed by the heating check
on the new velocity `previousSpeed + dt * a`. -/
theorem speed_of_pos (W : World α) (previousSpeed position orientation : vec α)
    (fuelConsumption mShip mFuel : α) (moment : Rotation α)
    (specificImpulse size quantSizeOfSec maxOverload maxHeating rho : α)
    (hm : mShip + mFuel ≠ 0) (hdt : 0 < quantSizeOfSec)
    (hrho : airDensity W.exp W.G W.EarthMass W.EarthRadius W.ZeroCelsius
      (position.getScalar W.sqrt) = Except.ok rho) :
    speed W previousSpeed position orientation fuelConsumption mShip mFuel moment
      specificImpulse size quantSizeOfSec maxOverload maxHeating =
    if (netAcceleration W previousSpeed position orientation fuelConsumption (mShip + mFuel)
          specificImpulse size rho).getScalar W.sqrt
        / (W.G * W.EarthMass / position.getScalar W.sqrt ^ 2) > maxOverload then
      Except.error Error.Overload
    else
      speedHeating W position
        ⟨previousSpeed.x + quantSizeOfSec * (netAcceleration W previousSpeed position
            orientation fuelConsumption (mShip + mFuel) specificImpulse size rho).x,
         previousSpeed.y + quantSizeOfSec * (netAcceleration W previousSpeed position
            orientation fuelConsumption (mShip + mFuel) specificImpulse size rho).y,
         previousSpeed.z + quantSizeOfSec * (netAcceleration W previousSpeed position
            orientation fuelConsumption (mShip + mFuel) specificImpulse size rho).z⟩
        (position.getScalar W.sqrt) maxHeating := by
  have hq : quantSizeOfSec ≠ 0 := ne_of_gt hdt
  unfold speed
  dsimp only
  rw [if_pos hm, if_pos hdt, hrho]
  dsimp only
  have ha : (⟨-(previousSpeed.multiplyWithDouble (rho * previousSpeed.getScalar W.sqrt *
        (size * size) / (2 * (mShip + mFuel)))).x +
      (orientation.multiplyWithDouble ((calculateTractiveForce W.sqrt fuelConsumption
        specificImpulse previousSpeed).getScalar W.sqrt / (mShip + mFuel))).x -
      (position.multiplyWithDouble (W.G * W.EarthMass / position.getScalar W.sqrt ^ 3)).x,
      -(previousSpeed.multiplyWithDouble (rho * previousSpeed.getScalar W.sqrt *
        (size * size) / (2 * (mShip + mFuel)))).y +
      (orientation.multiplyWithDouble ((calculateTractiveForce W.sqrt fuelConsumption
        specificImpulse previousSpeed).getScalar W.sqrt / (mShip + mFuel))).y -
      (position.multiplyWithDouble (W.G * W.EarthMass / position.getScalar W.sqrt ^ 3)).y,
      -(previousSpeed.multiplyWithDouble (rho * previousSpeed.getScalar W.sqrt *
        (size * size) / (2 * (mShip + mFuel)))).z +
      (orientation.multiplyWithDouble ((calculateTractiveForce W.sqrt fuelConsumption
        specificImpulse previousSpeed).getScalar W.sqrt / (mShip + mFuel))).z -
      (position.multiplyWithDouble (W.G * W.EarthMass / position.getScalar W.sqrt ^ 3)).z⟩ :
        vec α)
      = netAcceleration W previousSpeed position orientation fuelConsumption (mShip + mFuel)
          specificImpulse size rho := by
    simp only [netAcceleration, dragRate, thrustRate, gravityRate, vec.multiplyWithDouble,
      vec.mk.injEq]
    refine ⟨?_, ?_, ?_⟩ <;> ring
  rw [ha]
  have he : (⟨((previousSpeed.multiplyWithDouble (1 / quantSizeOfSec -
        rho * previousSpeed.getScalar W.sqrt * (size * size) / (2 * (mShip + mFuel)))).x +
      (orientation.multiplyWithDouble ((calculateTractiveForce W.sqrt fuelConsumption
        specificImpulse previousSpeed).getScalar W.sqrt / (mShip + mFuel))).x -
      (position.multiplyWithDouble (W.G * W.EarthMass / position.getScalar W.sqrt ^ 3)).x) *
        quantSizeOfSec,
      ((previousSpeed.multiplyWithDouble (1 / quantSizeOfSec -
        rho * previousSpeed.getScalar W.sqrt * (size * size) / (2 * (mShip + mFuel)))).y +
      (orientation.multiplyWithDouble ((calculateTractiveForce W.sqrt fuelConsumption
        specificImpulse previousSpeed).getScalar W.sqrt / (mShip + mFuel))).y -
      (position.multiplyWithDouble (W.G * W.EarthMass / position.getScalar W.sqrt ^ 3)).y) *
        quantSizeOfSec,
      ((previousSpeed.multiplyWithDouble (1 / quantSizeOfSec -
        rho * previousSpeed.getScalar W.sqrt * (size * size) / (2 * (mShip + mFuel)))).z +
      (orientation.multiplyWithDouble ((calculateTractiveForce W.sqrt fuelConsumption
        specificImpulse previousSpeed).getScalar W.sqrt / (mShip + mFuel))).z -
      (position.multiplyWithDouble (W.G * W.EarthMass / position.getScalar W.sqrt ^ 3)).z) *
        quantSizeOfSec⟩ : vec α)
      = ⟨previousSpeed.x + quantSizeOfSec * (netAcceleration W previousSpeed position
            orientation fuelConsumption (mShip + mFuel) specificImpulse size rho).x,
         previousSpeed.y + quantSizeOfSec * (netAcceleration W previousSpeed position
            orientation fuelConsumption (mShip + mFuel) specificImpulse size rho).y,
         previousSpeed.z + quantSizeOfSec * (netAcceleration W previousSpeed position
            orientation fuelConsumption (mShip + mFuel) specificImpulse size rho).z⟩ := by
    simp only [netAcceleration, dragRate, thrustRate, gravityRate, vec.multiplyWithDouble,
      vec.mk.injEq]
    refine ⟨?_, ?_, ?_⟩ <;> field_simp <;> ring
  rw [he]

/-- Above the surface `airDensity` returns a value. -/
theorem airDensity_ok (exp : α → α) (G EarthMass EarthRadius ZeroCelsius height : α)
    (hh : EarthRadius < height) :
    ∃ rho, airDensity exp G EarthMass EarthRadius ZeroCelsius height = Except.ok rho := by
  obtain ⟨T, hT⟩ := temperature_of_pos ZeroCelsius (height - EarthRadius) (sub_pos.mpr hh)
  unfold airDensity
  dsimp only
  rw [hT]
  dsimp only
  split_ifs
  · exact ⟨_, rfl⟩
  · exact ⟨_, rfl⟩

/-- The heating check returns the velocity it is given, or fails. -/
theorem speedHeating_ok (W : World α) (position exit r : vec α) (H maxHeating : α)
    (h : speedHeating W position exit H maxHeating = Except.ok r) : r = exit := by
  unfold speedHeating at h
  split_ifs at h
  · split at h
    · cases h
    · dsimp only at h
      split_ifs at h
      cases h
      rfl
  · cases h
    rfl

/-- The heating check never fails with `Overload`. -/
theorem speedHeating_ne_overload (W : World α) (position exit : vec α) (H maxHeating : α) :
    speedHeating W position exit H maxHeating ≠ Except.error Error.Overload := by
  intro h
  unfold speedHeating at h
  split_ifs at h
  split at h
  · rename_i e he
    cases h
    by_cases hp : position.getScalar W.sqrt ≤ 0
    · rw [temperature_of_nonpos _ _ hp] at he
      cases he
    · obtain ⟨t, ht⟩ := temperature_of_pos W.ZeroCelsius _ (not_le.mp hp)
      rw [ht] at he
      cases he
  · dsimp only at h
    split_ifs at h
    cases h

/-- C15: a call of `speed` with non-zero total mass, `dt > 0` and `H = |position|` above
`EarthRadius` that returns without error returns
`(previousSpeed * (1/dt - dragRate) + orientation * thrustRate - position * gravityRate) * dt`,
which is `previousSpeed + dt * a` for the net acceleration `a` whose magnitude the overload
check uses. -/
theorem speed_euler (W : World α) (previousSpeed position orientation : vec α)
    (fuelConsumption mShip mFuel : α) (moment : Rotation α)
    (specificImpulse size quantSizeOfSec maxOverload maxHeating : α)
    (hm : mShip + mFuel ≠ 0) (hdt : 0 < quantSizeOfSec)
    (hH : W.EarthRadius < position.getScalar W.sqrt) (r : vec α)
    (hr : speed W previousSpeed position orientation fuelConsumption mShip mFuel moment
      specificImpulse size quantSizeOfSec maxOverload maxHeating = Except.ok r) :
    ∃ rho, airDensity W.exp W.G W.EarthMass W.EarthRadius W.ZeroCelsius
        (position.getScalar W.sqrt) = Except.ok rho ∧
      r = speedFormula W previousSpeed position orientation fuelConsumption (mShip + mFuel)
        specificImpulse size quantSizeOfSec rho ∧
      r = eulerUpdate W previousSpeed position orientation fuelConsumption (mShip + mFuel)
        specificImpulse size quantSizeOfSec rho := by
  obtain ⟨rho, hrho⟩ := airDensity_ok W.exp W.G W.EarthMass W.EarthRadius W.ZeroCelsius _ hH
  have hq : quantSizeOfSec ≠ 0 := ne_of_gt hdt
  rw [speed_of_pos W previousSpeed position orientation fuelConsumption mShip mFuel moment
    specificImpulse size quantSizeOfSec maxOverload maxHeating rho hm hdt hrho] at hr
  split_ifs at hr
  have e := speedHeating_ok W _ _ _ _ _ hr
  refine ⟨rho, hrho, ?_, e⟩
  rw [e]
  simp only [speedFormula, netAcceleration, vec.mk.injEq]
  refine ⟨?_, ?_, ?_⟩ <;> field_simp <;> ring

/-- C16: a call of `speed` with a quant `dt ≤ 0` and non-zero total mass returns
`previousSpeed` and raises no error, whatever the position and the two limits are. -/
theorem speed_nonpositive_quant (W : World α) (previousSpeed position orientation : vec α)
    (fuelConsumption mShip mFuel : α) (moment : Rotation α)
    (specificImpulse size quantSizeOfSec maxOverload maxHeating : α)
    (hm : mShip + mFuel ≠ 0) (hdt : quantSizeOfSec ≤ 0) :
    speed W previousSpeed position orientation fuelConsumption mShip mFuel moment
      specificImpulse size quantSizeOfSec maxOverload maxHeating = Except.ok previousSpeed :=
  speed_of_nonpos W previousSpeed position orientation fuelConsumption mShip mFuel moment
    specificImpulse size quantSizeOfSec maxOverload maxHeating hm hdt

/-- The overload test of `speed`: with non-zero total mass, `dt > 0` and the air density `rho`
at `H`, `speed` fails with `Overload` exactly when the magnitude of the net acceleration over
`G * EarthMass / H ^ 2` exceeds `maxOverload`. -/
theorem speed_fails_overload_iff (W : World α) (previousSpeed position orientation : vec α)
    (fuelConsumption mShip mFuel : α) (moment : Rotation α)
    (specificImpulse size quantSizeOfSec maxOverload maxHeating rho : α)
    (hm : mShip + mFuel ≠ 0) (hdt : 0 < quantSizeOfSec)
    (hrho : airDensity W.exp W.G W.EarthMass W.EarthRadius W.ZeroCelsius
      (position.getScalar W.sqrt) = Except.ok rho) :
    speed W previousSpeed position orientation fuelConsumption mShip mFuel moment
        specificImpulse size quantSizeOfSec maxOverload maxHeating
      = Except.error Error.Overload ↔
    (netAcceleration W previousSpeed position orientation fuelConsumption (mShip + mFuel)
        specificImpulse size rho).getScalar W.sqrt
      / (W.G * W.EarthMass / position.getScalar W.sqrt ^ 2) > maxOverload := by
  rw [speed_of_pos W previousSpeed position orientation fuelConsumption mShip mFuel moment
    specificImpulse size quantSizeOfSec maxOverload maxHeating rho hm hdt hrho]
  split_ifs with h
  · exact ⟨fun _ => h, fun _ => rfl⟩
  · exact ⟨fun e => absurd e (speedHeating_ne_overload W _ _ _ _), fun e => absurd e h⟩

/-- The loop body is `rotationStep`, then `fuelStep`, then `positionStep`. -/
theorem loopBody_eq (W : World α) (P : ShipParams α) (Q : Quants α) (s : LoopState α) :
    loopBody W P Q s =
      match P.flightPlan[s.j]? with
      | none => Except.error Error.OutOfRange
      | some c =>
        match rotationStep W P Q c s with
        | Except.error e => Except.error e
        | Except.ok s1 =>
          match fuelStep W P Q c.impulseValue s1 with
          | Except.error e => Except.error e
          | Except.ok s2 => positionStep W P Q s2 := by
  unfold loopBody rotationStep
  cases P.flightPlan[s.j]? with
  | none => rfl
  | some c =>
    dsimp only
    cases calculateAerodynamicForce W.sqrt W.exp W.G W.EarthMass W.EarthRadius W.ZeroCelsius
      s.currentSpeed (P.shipEdgeLength ^ 2) s.height with
    | error e => rfl
    | ok a => rfl

/-- When the velocity update of the sufficient-fuel branch (orbit.cpp lines 243-247) fails,
the pass fails with the same error. -/
theorem loopBody_speed_error (W : World α) (P : ShipParams α) (Q : Quants α)
    (s s1 : LoopState α) (c : FlightCommand α) (e : Error)
    (hj : P.flightPlan[s.j]? = some c) (hr : rotationStep W P Q c s = Except.ok s1)
    (hf : ¬ c.impulseValue * Q.quantSizeOfSec > s1.fuel)
    (hs : speed W s1.currentSpeed s1.currentPosition s1.currentOrientation c.impulseValue
      P.shipMass s1.fuel s1.moment P.impulsePerFuel P.shipEdgeLength Q.quantSizeOfSec
      P.maxOverload P.maxHeating = Except.error e) :
    loopBody W P Q s = Except.error e := by
  rw [loopBody_eq, hj]
  dsimp only
  rw [hr]
  dsimp only
  have hfs : fuelStep W P Q c.impulseValue s1 = Except.error e := by
    unfold fuelStep
    rw [if_neg hf, hs]
  rw [hfs]

/-- A state at the head of the loop with the loop condition true has run exactly `m` passes:
its counter is the initial one plus `m`. -/
theorem loop_reach (W : World α) (P : ShipParams α) (Q : Quants α) (s0 : LoopState α)
    (m : Nat) : ∀ s, loop W P Q m s0 = Except.ok s →
      ¬ (s.i < Q.numberOfQuants ∧ s.height > W.EarthRadius) ∨ s.i = s0.i + m := by
  induction m with
  | zero =>
    intro s h
    rw [loop] at h
    cases h
    exact Or.inr rfl
  | succ m ih =>
    intro s h
    rw [loop_succ] at h
    cases hk : loop W P Q m s0 with
    | error e => rw [hk] at h; cases h
    | ok s1 =>
      rw [hk] at h
      dsimp only at h
      rw [loop] at h
      by_cases hc : s1.i < Q.numberOfQuants ∧ s1.height > W.EarthRadius
      · rw [if_pos hc] at h
        have hi : s1.i = s0.i + m := (ih s1 hk).resolve_left (not_not.mpr hc)
        cases hb : loopBody W P Q s1 with
        | error e => rw [hb] at h; cases h
        | ok o =>
          rw [hb] at h
          cases o with
          | next s2 =>
            dsimp only at h
            rw [loop] at h
            cases h
            right
            have := loopBody_i W P Q s1 _ hb
            dsimp only [Outcome.state] at this ⊢
            omega
          | stop s2 =>
            dsimp only at h
            cases h
            left
            obtain ⟨c, t0, t1, _, _, _, _, hps⟩ := loopBody_ok W P Q s1 _ hb
            rw [positionStep_stop_height W P Q t1 s hps]
            exact fun hn => lt_irrefl _ hn.2
      · rw [if_neg hc] at h
        cases h
        exact Or.inl hc

/-- Once the loop has ended after `m + 1` passes, with an error or in a state that fails the
loop condition, more passes change nothing. -/
theorem loop_stable (W : World α) (P : ShipParams α) (Q : Quants α) (s0 : LoopState α)
    (m : Nat) (r : Except Error (LoopState α)) (h : loop W P Q (m + 1) s0 = r)
    (hr : ∀ x, r = Except.ok x → ¬ (x.i < Q.numberOfQuants ∧ x.height > W.EarthRadius)) :
    ∀ t, loop W P Q (m + 1 + t) s0 = r := by
  intro t
  induction t with
  | zero => exact h
  | succ t ih =>
    have e : m + 1 + (t + 1) = (m + 1 + t) + 1 := by omega
    rw [e, loop_succ, ih]
    cases r with
    | error e => rfl
    | ok x =>
      dsimp only
      rw [loop, if_neg (hr x rfl)]

/-- The state in which the loop is entered has `i = 0` and an output of `numberOfQuants`
entries. -/
theorem initialState_i (W : World α) (I : ShipPosition α) (P : ShipParams α) (Q : Quants α)
    (s0 : LoopState α) (h : initialState W I P Q = Except.ok s0) :
    s0.i = 0 ∧ s0.calculatedFlightPlan.length = Q.numberOfQuants := by
  unfold initialState at h
  split at h
  · cases h
  · cases h
    exact ⟨rfl, List.length_replicate _ _⟩

/-- What the loop of `computeFlightPlan` returns when the pass at a state `s`, reached after
`m` passes with the loop condition true, ends the loop with the result `r`: `m < numberOfQuants`
and the loop returns `r`. -/
theorem loop_final (W : World α) (I : ShipPosition α) (P : ShipParams α) (Q : Quants α)
    (s0 s : LoopState α) (m : Nat) (r : Except Error (LoopState α))
    (h0 : initialState W I P Q = Except.ok s0) (hm : loop W P Q m s0 = Except.ok s)
    (hc : s.i < Q.numberOfQuants ∧ s.height > W.EarthRadius)
    (h1 : loop W P Q 1 s = r)
    (hr : ∀ x, r = Except.ok x → ¬ (x.i < Q.numberOfQuants ∧ x.height > W.EarthRadius)) :
    s.i = m ∧ loop W P Q Q.numberOfQuants s0 = r := by
  have hi : s.i = m := by
    have := (loop_reach W P Q s0 m s hm).resolve_left (not_not.mpr hc)
    rw [(initialState_i W I P Q s0 h0).1] at this
    omega
  refine ⟨hi, ?_⟩
  have hsucc : loop W P Q (m + 1) s0 = r := by
    rw [loop_succ, hm]
    exact h1
  have hn : Q.numberOfQuants = m + 1 + (Q.numberOfQuants - (m + 1)) := by omega
  rw [hn]
  exact loop_stable W P Q s0 m r hsucc hr _

/-- A run whose pass at a reached state fails, fails with that error. -/
theorem computeFlightPlan_error (W : World α) (I : ShipPosition α) (P : ShipParams α)
    (Q : Quants α) (s0 s : LoopState α) (m : Nat) (e : Error)
    (h0 : initialState W I P Q = Except.ok s0) (hm : loop W P Q m s0 = Except.ok s)
    (hc : s.i < Q.numberOfQuants ∧ s.height > W.EarthRadius)
    (hb : loopBody W P Q s = Except.error e) :
    computeFlightPlan W I P Q = Except.error e := by
  have h1 : loop W P Q 1 s = Except.error e := by
    rw [loop, if_pos hc, hb]
  have hf := (loop_final W I P Q s0 s m _ h0 hm hc h1 (fun x hx => by cases hx)).2
  unfold computeFlightPlan
  rw [h0]
  dsimp only
  rw [hf]

/-- C13: (1) a call of `speed` with non-zero total mass, `dt > 0` and `H = |position|` above
`EarthRadius` fails with `Overload` exactly when `|a| / (G * EarthMass / H ^ 2) > maxOverload`,
`a` the net acceleration `-dragRate * previousSpeed + thrustRate * orientation -
gravityRate * position` at the air density `airDensity(H)`; (2) when the velocity update of a
pass of `computeFlightPlan` (lines 243-247) fails with `Overload`, the run fails with
`Overload` and returns no result. -/
theorem speed_overload (W : World α) :
    (∀ (previousSpeed position orientation : vec α) (fuelConsumption mShip mFuel : α)
        (moment : Rotation α) (specificImpulse size quantSizeOfSec maxOverload maxHeating : α),
      mShip + mFuel ≠ 0 → 0 < quantSizeOfSec → W.EarthRadius < position.getScalar W.sqrt →
      ∃ rho, airDensity W.exp W.G W.EarthMass W.EarthRadius W.ZeroCelsius
          (position.getScalar W.sqrt) = Except.ok rho ∧
        (speed W previousSpeed position orientation fuelConsumption mShip mFuel moment
            specificImpulse size quantSizeOfSec maxOverload maxHeating
          = Except.error Error.Overload ↔
        (netAcceleration W previousSpeed position orientation fuelConsumption (mShip + mFuel)
            specificImpulse size rho).getScalar W.sqrt
          / (W.G * W.EarthMass / position.getScalar W.sqrt ^ 2) > maxOverload)) ∧
    (∀ (I : ShipPosition α) (P : ShipParams α) (Q : Quants α) (s0 s s1 : LoopState α)
        (m : Nat) (c : FlightCommand α),
      initialState W I P Q = Except.ok s0 → loop W P Q m s0 = Except.ok s →
      (s.i < Q.numberOfQuants ∧ s.height > W.EarthRadius) →
      P.flightPlan[s.j]? = some c → rotationStep W P Q c s = Except.ok s1 →
      ¬ c.impulseValue * Q.quantSizeOfSec > s1.fuel →
      speed W s1.currentSpeed s1.currentPosition s1.currentOrientation c.impulseValue
        P.shipMass s1.fuel s1.moment P.impulsePerFuel P.shipEdgeLength Q.quantSizeOfSec
        P.maxOverload P.maxHeating = Except.error Error.Overload →
      computeFlightPlan W I P Q = Except.error Error.Overload) := by
  refine ⟨?_, ?_⟩
  · intro previousSpeed position orientation fuelConsumption mShip mFuel moment
      specificImpulse size quantSizeOfSec maxOverload maxHeating hm hdt hH
    obtain ⟨rho, hrho⟩ := airDensity_ok W.exp W.G W.EarthMass W.EarthRadius W.ZeroCelsius _ hH
    exact ⟨rho, hrho, speed_fails_overload_iff W previousSpeed position orientation fuelConsumption
      mShip mFuel moment specificImpulse size quantSizeOfSec maxOverload maxHeating rho hm hdt
      hrho⟩
  · intro I P Q s0 s s1 m c h0 hm hc hj hr hf hs
    exact computeFlightPlan_error W I P Q s0 s m _ h0 hm hc
      (loopBody_speed_error W P Q s s1 c _ hj hr hf hs)

end Integrator

section Padding

variable {α : Type}

/-- Writing a position keeps the number of samples. -/
theorem setPosition_length (out : List (ReturnValues α)) (i : Nat) (p : vec α) :
    (setPosition out i p).length = out.length := by
  unfold setPosition
  split
  · rfl
  · exact List.length_set _ _ _

/-- Writing a velocity keeps the number of samples. -/
theorem setSpeed_length (out : List (ReturnValues α)) (i : Nat) (v : vec α) :
    (setSpeed out i v).length = out.length := by
  unfold setSpeed
  split
  · rfl
  · exact List.length_set _ _ _

/-- Writing the position of slot `i` changes the position of that slot and nothing else. -/
theorem setPosition_getElem? (out : List (ReturnValues α)) (i j : Nat) (p : vec α) :
    (setPosition out i p)[j]? =
      if i = j then (out[j]?).map (fun r => ⟨p, r.speed⟩) else out[j]? := by
  unfold setPosition
  by_cases hij : i = j
  · subst hij
    rw [if_pos rfl]
    cases h : out[i]? with
    | none => simp [h]
    | some r =>
      have hlt : i < out.length := (List.getElem?_eq_some_iff.mp h).1
      simp [List.getElem?_set_self hlt]
  · rw [if_neg hij]
    cases h : out[i]? with
    | none => rfl
    | some r => exact List.getElem?_set_ne hij

/-- Writing the velocity of slot `i` changes the velocity of that slot and nothing else. -/
theorem setSpeed_getElem? (out : List (ReturnValues α)) (i j : Nat) (v : vec α) :
    (setSpeed out i v)[j]? =
      if i = j then (out[j]?).map (fun r => ⟨r.position, v⟩) else out[j]? := by
  unfold setSpeed
  by_cases hij : i = j
  · subst hij
    rw [if_pos rfl]
    cases h : out[i]? with
    | none => simp [h]
    | some r =>
      have hlt : i < out.length := (List.getElem?_eq_some_iff.mp h).1
      simp [List.getElem?_set_self hlt]
  · rw [if_neg hij]
    cases h : out[i]? with
    | none => rfl
    | some r => exact List.getElem?_set_ne hij

/-- The padding loop run for `t` slots from slot `i`: the number of samples is kept, the slots
`i, ..., i + t - 1` get the position `p` and keep their velocity, the other slots are kept. -/
theorem padding_fold (p : vec α) (i : Nat) (out : List (ReturnValues α)) (t : Nat) :
    ((List.range t).foldl (fun o k => setPosition o (i + k) p) out).length = out.length ∧
    ∀ j, ((List.range t).foldl (fun o k => setPosition o (i + k) p) out)[j]? =
      if i ≤ j ∧ j < i + t then (out[j]?).map (fun r => ⟨p, r.speed⟩) else out[j]? := by
  induction t with
  | zero =>
    refine ⟨rfl, fun j => ?_⟩
    rw [if_neg (by omega)]
    rfl
  | succ t ih =>
    rw [List.range_succ, List.foldl_append]
    simp only [List.foldl_cons, List.foldl_nil]
    refine ⟨by rw [setPosition_length, ih.1], fun j => ?_⟩
    rw [setPosition_getElem?, ih.2 j]
    by_cases hj : i + t = j
    · rw [if_pos hj, if_neg (by omega), if_pos (by omega)]
    · rw [if_neg hj]
      by_cases hr : i ≤ j ∧ j < i + t
      · rw [if_pos hr, if_pos (by omega)]
      · rw [if_neg hr, if_neg (by omega)]

/-- The output of `padding` for a state whose counter is inside the output: the number of
samples is kept, the slots from `s.i` on get the position of slot `s.i` and keep their
velocity, the slots before `s.i` are kept. -/
theorem padding_spec (n : Nat) (s : LoopState α) (r : ReturnValues α)
    (hn : s.calculatedFlightPlan.length = n) (hr : s.calculatedFlightPlan[s.i]? = some r) :
    (padding n s).length = n ∧
    ∀ j, (padding n s)[j]? =
      if s.i ≤ j then (s.calculatedFlightPlan[j]?).map (fun x => ⟨r.position, x.speed⟩)
      else s.calculatedFlightPlan[j]? := by
  unfold padding
  rw [hr]
  dsimp only
  obtain ⟨h1, h2⟩ := padding_fold r.position s.i s.calculatedFlightPlan (n - s.i)
  refine ⟨by rw [h1, hn], fun j => ?_⟩
  rw [h2 j]
  by_cases hj : s.i ≤ j
  · rw [if_pos hj]
    by_cases hjn : j < n
    · rw [if_pos (by omega)]
    · rw [if_neg (by omega), List.getElem?_eq_none (by omega)]
      rfl
  · rw [if_neg hj, if_neg (by omega)]

end Padding

section Landing

variable {α : Type} [LinearOrderedField α]

/-- The start of the loop body leaves the counter and the output alone. -/
theorem rotationStep_out (W : World α) (P : ShipParams α) (Q : Quants α)
    (c : FlightCommand α) (s s1 : LoopState α) (h : rotationStep W P Q c s = Except.ok s1) :
    s1.i = s.i ∧ s1.calculatedFlightPlan = s.calculatedFlightPlan := by
  unfold rotationStep at h
  dsimp only at h
  split at h
  · cases h
  · cases h
    exact ⟨rfl, rfl⟩

/-- The fuel branch keeps the number of samples. -/
theorem fuelStep_length (W : World α) (P : ShipParams α) (Q : Quants α) (level : α)
    (s s1 : LoopState α) (h : fuelStep W P Q level s = Except.ok s1) :
    s1.calculatedFlightPlan.length = s.calculatedFlightPlan.length := by
  unfold fuelStep at h
  split_ifs at h
  · dsimp only at h
    split at h
    · cases h
    · split at h
      · cases h
      · cases h
        exact setSpeed_length _ _ _
  · split at h
    · cases h
    · cases h
      exact setSpeed_length _ _ _

/-- The end of the loop body keeps the number of samples. -/
theorem positionStep_length (W : World α) (P : ShipParams α) (Q : Quants α)
    (s : LoopState α) (o : Outcome α) (h : positionStep W P Q s = Except.ok o) :
    o.state.calculatedFlightPlan.length = s.calculatedFlightPlan.length := by
  unfold positionStep at h
  dsimp only at h
  split_ifs at h
  · cases h; exact setPosition_length _ _ _
  · cases h; exact setPosition_length _ _ _
  · split at h
    · cases h
    · cases h; exact setPosition_length _ _ _
  · cases h; exact setPosition_length _ _ _

/-- A pass that ends in `break` has written the position it stops at into slot `i`. -/
theorem positionStep_stop_slot (W : World α) (P : ShipParams α) (Q : Quants α)
    (s sL : LoopState α) (h : positionStep W P Q s = Except.ok (Outcome.stop sL)) :
    sL.calculatedFlightPlan = setPosition s.calculatedFlightPlan s.i sL.currentPosition := by
  unfold positionStep at h
  dsimp only at h
  split_ifs at h
  · cases h; rfl
  · cases h; rfl
  · split at h
    · cases h
    · cases h
  · cases h

/-- A pass through the loop body, taken apart: the states after `rotationStep` and after
`fuelStep`. -/
theorem loopBody_parts (W : World α) (P : ShipParams α) (Q : Quants α)
    (s : LoopState α) (o : Outcome α) (h : loopBody W P Q s = Except.ok o) :
    ∃ c s1 s2, P.flightPlan[s.j]? = some c ∧ rotationStep W P Q c s = Except.ok s1 ∧
      fuelStep W P Q c.impulseValue s1 = Except.ok s2 ∧ positionStep W P Q s2 = Except.ok o := by
  rw [loopBody_eq] at h
  split at h
  · cases h
  · rename_i c hc
    split at h
    · cases h
    · rename_i s1 hs1
      split at h
      · cases h
      · rename_i s2 hs2
        exact ⟨c, s1, s2, hc, hs1, hs2, h⟩

/-- A pass through the loop body keeps the number of samples. -/
theorem loopBody_length (W : World α) (P : ShipParams α) (Q : Quants α)
    (s : LoopState α) (o : Outcome α) (h : loopBody W P Q s = Except.ok o) :
    o.state.calculatedFlightPlan.length = s.calculatedFlightPlan.length := by
  obtain ⟨c, s1, s2, _, h1, h2, h3⟩ := loopBody_parts W P Q s o h
  rw [positionStep_length W P Q s2 o h3, fuelStep_length W P Q _ s1 s2 h2,
    (rotationStep_out W P Q c s s1 h1).2]

/-- The loop keeps the number of samples. -/
theorem loop_length (W : World α) (P : ShipParams α) (Q : Quants α) (s0 : LoopState α)
    (m : Nat) : ∀ s, loop W P Q m s0 = Except.ok s →
      s.calculatedFlightPlan.length = s0.calculatedFlightPlan.length := by
  induction m with
  | zero =>
    intro s h
    rw [loop] at h
    cases h
    rfl
  | succ m ih =>
    intro s h
    rw [loop_succ] at h
    cases hk : loop W P Q m s0 with
    | error e => rw [hk] at h; cases h
    | ok s1 =>
      rw [hk] at h
      dsimp only at h
      rw [loop] at h
      split_ifs at h
      · cases hb : loopBody W P Q s1 with
        | error e => rw [hb] at h; cases h
        | ok o =>
          rw [hb] at h
          have hl := loopBody_length W P Q s1 o hb
          cases o with
          | next s2 =>
            dsimp only at h
            rw [loop] at h
            cases h
            exact hl.trans (ih s1 hk)
          | stop s2 =>
            dsimp only at h
            cases h
            exact hl.trans (ih s1 hk)
      · cases h
        exact ih _ hk

/-- C11: when the pass at step `k = s.i` of a run ends the loop by `break` (either landing
branch) in the state `sL`, `computeFlightPlan` returns `numberOfQuants` samples; slot `k` of
`sL` holds the landing position `sL.currentPosition`, every output slot `j` with
`k ≤ j ≤ numberOfQuants - 1` holds that position, and the slots before `k` are those of `sL`,
untouched by the padding. -/
theorem computeFlightPlan_landing_padding (W : World α) (I : ShipPosition α)
    (P : ShipParams α) (Q : Quants α) (s0 s sL : LoopState α) (m : Nat)
    (h0 : initialState W I P Q = Except.ok s0) (hm : loop W P Q m s0 = Except.ok s)
    (hc : s.i < Q.numberOfQuants ∧ s.height > W.EarthRadius)
    (hb : loopBody W P Q s = Except.ok (Outcome.stop sL)) :
    ∃ out, computeFlightPlan W I P Q = Except.ok out ∧ out.length = Q.numberOfQuants ∧
      (∃ r, sL.calculatedFlightPlan[s.i]? = some r ∧ r.position = sL.currentPosition) ∧
      (∀ j, s.i ≤ j → j < Q.numberOfQuants →
        ∃ r, out[j]? = some r ∧ r.position = sL.currentPosition) ∧
      (∀ j, j < s.i → out[j]? = sL.calculatedFlightPlan[j]?) := by
  obtain ⟨c, s1, s2, _, hr1, hr2, hr3⟩ := loopBody_parts W P Q s _ hb
  have hheight : sL.height = W.EarthRadius := positionStep_stop_height W P Q s2 sL hr3
  have hnc : ¬ (sL.i < Q.numberOfQuants ∧ sL.height > W.EarthRadius) := by
    rw [hheight]
    exact fun hn => lt_irrefl _ hn.2
  have h1 : loop W P Q 1 s = Except.ok sL := by
    rw [loop, if_pos hc, hb]
  have hfin := (loop_final W I P Q s0 s m _ h0 hm hc h1
    (fun x hx => by cases hx; exact hnc)).2
  have hi : sL.i = s.i := loopBody_i W P Q s _ hb
  have hlen_s : s.calculatedFlightPlan.length = Q.numberOfQuants :=
    (loop_length W P Q s0 m s hm).trans (initialState_i W I P Q s0 h0).2
  have hlen : sL.calculatedFlightPlan.length = Q.numberOfQuants :=
    (loopBody_length W P Q s _ hb).trans hlen_s
  have hi2 : s2.i = s.i := by
    rw [fuelStep_i W P Q _ s1 s2 hr2, (rotationStep_out W P Q c s s1 hr1).1]
  have hlen2 : s2.calculatedFlightPlan.length = Q.numberOfQuants := by
    rw [fuelStep_length W P Q _ s1 s2 hr2, (rotationStep_out W P Q c s s1 hr1).2, hlen_s]
  have hslot : ∃ r, sL.calculatedFlightPlan[s.i]? = some r ∧
      r.position = sL.currentPosition := by
    rw [positionStep_stop_slot W P Q s2 sL hr3, setPosition_getElem?, hi2, if_pos rfl]
    have hlt : s.i < s2.calculatedFlightPlan.length := by rw [hlen2]; exact hc.1
    rw [List.getElem?_eq_getElem hlt]
    exact ⟨_, rfl, rfl⟩
  obtain ⟨r, hr, hrp⟩ := hslot
  have hpad := padding_spec Q.numberOfQuants sL r hlen (by rw [hi]; exact hr)
  refine ⟨padding Q.numberOfQuants sL, ?_, hpad.1, ⟨r, hr, hrp⟩, fun j hj hjn => ?_,
    fun j hj => ?_⟩
  · unfold computeFlightPlan
    rw [h0]
    dsimp only
    rw [hfin]
    dsimp only
    rw [if_pos (le_of_eq hheight)]
  · rw [hpad.2 j, if_pos (by omega)]
    have hlt : j < sL.calculatedFlightPlan.length := by rw [hlen]; exact hjn
    rw [List.getElem?_eq_getElem hlt]
    exact ⟨_, rfl, hrp⟩
  · rw [hpad.2 j, if_neg (by omega)]

end Landing

section Scenarios

/-- The sample descent with three quants enters the loop in `descentState3`. -/
theorem descent3_initialState :
    initialState (sampleWorld Real.sqrt Real.exp) descentStart descentParams descentQuants3
      = Except.ok descentState3 := by
  norm_num [initialState, sampleWorld, descentStart, descentParams, descentQuants3,
    descentState3, descentState, getScalar_real_axis_abs, abs_div, Nat.abs_ofNat,
    List.replicate]

/-- The first pass of the sample descent with three quants takes the ground-crossing branch
and leaves the loop in `descentLanded3`. -/
theorem descent3_loopBody :
    loopBody (sampleWorld Real.sqrt Real.exp) descentParams descentQuants3 descentState3
      = Except.ok (Outcome.stop (descentLanded3 Real.sqrt)) := by
  norm_num [loopBody, fuelStep, positionStep, sampleWorld, descentParams, descentQuants3,
    descentState3, descentLanded3, descentState, descentLanded, descentLanding, descentSpeed,
    descentBelow, getScalar_real_axis_abs, abs_div, abs_neg, Nat.abs_ofNat, abs_mul, speed,
    airDensity, temperature, calculateTractiveForce, vec.multiplyWithDouble, speedHeating,
    calculateAerodynamicForce, calculateAngularVelocity, calculateGravityForce, cross, advance,
    setSpeed, setPosition]

/-- The loop condition holds on entry of the sample descent with three quants. -/
theorem descent3_cond :
    (descentState3 : LoopState ℝ).i < (descentQuants3 : Quants ℝ).numberOfQuants ∧
    (descentState3 : LoopState ℝ).height > (sampleWorld Real.sqrt Real.exp).EarthRadius := by
  norm_num [descentQuants3, descentState3, descentState, sampleWorld]

/-- The output of `computeFlightPlan` on the sample descent with three quants: the landing
position in all three slots, the velocity of the pass in slot 0 and the zero vector, to which
the output is initialised, in slots 1 and 2. -/
theorem descent3_computeFlightPlan :
    computeFlightPlan (sampleWorld Real.sqrt Real.exp) descentStart descentParams descentQuants3
      = Except.ok [⟨descentLanding Real.sqrt, descentSpeed⟩,
          ⟨descentLanding Real.sqrt, ⟨0, 0, 0⟩⟩, ⟨descentLanding Real.sqrt, ⟨0, 0, 0⟩⟩] := by
  unfold computeFlightPlan
  rw [descent3_initialState]
  dsimp only
  have e : (descentQuants3 : Quants ℝ).numberOfQuants = 3 := rfl
  rw [e, loop, if_pos descent3_cond, descent3_loopBody]
  have hr : List.range 3 = [0, 1, 2] := rfl
  norm_num [descentLanded3, descentLanded, sampleWorld, padding, setPosition, hr]

/-- The velocity update of the first pass of the sample descent. -/
theorem descent_speed :
    speed (sampleWorld Real.sqrt Real.exp) ⟨-3, 0, 0⟩ ⟨6578.1, 0, 0⟩ ⟨-1, 0, 0⟩ 2 1000 500
      ⟨0, 0, 0⟩ 3 0.002 100 10 1000 = Except.ok descentSpeed := by
  norm_num [sampleWorld, descentSpeed, getScalar_real_axis_abs, abs_div, abs_neg,
    Nat.abs_ofNat, abs_mul, speed, airDensity, temperature, calculateTractiveForce,
    vec.multiplyWithDouble, speedHeating]

/-- The sample descent starts above the surface. -/
theorem descent_above :
    (sampleWorld Real.sqrt Real.exp).EarthRadius
      < vec.getScalar (sampleWorld Real.sqrt Real.exp).sqrt (⟨6578.1, 0, 0⟩ : vec ℝ) := by
  norm_num [sampleWorld, getScalar_real_axis_abs, abs_div, Nat.abs_ofNat]

/-- With the overload limit 1 the velocity update of the first pass of the sample descent
fails with `Overload`. -/
theorem overload_speed :
    speed (sampleWorld Real.sqrt Real.exp) (descentState : LoopState ℝ).currentSpeed
      (descentState : LoopState ℝ).currentPosition (descentState : LoopState ℝ).currentOrientation
      2 (overloadParams : ShipParams ℝ).shipMass (descentState : LoopState ℝ).fuel
      (descentState : LoopState ℝ).moment (overloadParams : ShipParams ℝ).impulsePerFuel
      (overloadParams : ShipParams ℝ).shipEdgeLength (descentQuants : Quants ℝ).quantSizeOfSec
      (overloadParams : ShipParams ℝ).maxOverload (overloadParams : ShipParams ℝ).maxHeating
      = Except.error Error.Overload := by
  norm_num [sampleWorld, descentState, overloadParams, descentParams, descentQuants,
    getScalar_real_axis_abs, abs_div, abs_neg, Nat.abs_ofNat, abs_mul, speed, airDensity,
    temperature, calculateTractiveForce, vec.multiplyWithDouble, speedHeating]

/-- The sample descent with the overload limit 1 enters the loop in `descentState`. -/
theorem overload_initialState :
    initialState (sampleWorld Real.sqrt Real.exp) descentStart overloadParams descentQuants
      = Except.ok descentState := by
  norm_num [initialState, sampleWorld, descentStart, descentParams, descentQuants,
    overloadParams, descentState, getScalar_real_axis_abs, abs_div, Nat.abs_ofNat]

/-- With all axes locked and no angular velocity, the start of the first pass of the sample
descent leaves the state as it is. -/
theorem overload_rotationStep :
    rotationStep (sampleWorld Real.sqrt Real.exp) overloadParams descentQuants
      ⟨2, ⟨0, 0, 0⟩, 1000⟩ descentState = Except.ok descentState := by
  norm_num [rotationStep, sampleWorld, descentParams, descentQuants, overloadParams,
    descentState, getScalar_real_axis_abs, abs_div, abs_neg, Nat.abs_ofNat, abs_mul,
    airDensity, temperature, calculateTractiveForce, vec.multiplyWithDouble,
    calculateAerodynamicForce, calculateAngularVelocity, calculateGravityForce, cross]

/-- The loop condition holds on entry of the sample descent. -/
theorem descent_cond :
    (descentState : LoopState ℝ).i < (descentQuants : Quants ℝ).numberOfQuants ∧
    (descentState : LoopState ℝ).height > (sampleWorld Real.sqrt Real.exp).EarthRadius := by
  norm_num [descentQuants, descentState, sampleWorld]

/-- The sample coast enters the loop in `coastState`. -/
theorem coast_initialState :
    initialState (sampleWorld Real.sqrt Real.exp) coastStart coastParams coastQuants
      = Except.ok coastState := by
  norm_num [initialState, sampleWorld, coastStart, coastParams, descentParams, coastQuants,
    coastState, getScalar_real_axis_abs, abs_div, Nat.abs_ofNat, List.replicate]

/-- The pass of step 0 of the sample coast neither lands nor fails, and keeps `j = 0`. -/
theorem coast_loopBody :
    loopBody (sampleWorld Real.sqrt Real.exp) coastParams coastQuants coastState
      = Except.ok (Outcome.next { (coastState1 : LoopState ℝ) with i := 0 }) := by
  norm_num [loopBody, fuelStep, positionStep, sampleWorld, coastParams, descentParams,
    coastQuants, coastState, coastState1, getScalar_real_axis_abs, abs_div, abs_neg,
    Nat.abs_ofNat, abs_mul, speed, airDensity, temperature, calculateTractiveForce,
    vec.multiplyWithDouble, speedHeating, calculateAerodynamicForce, calculateAngularVelocity,
    calculateGravityForce, cross, advance, setSpeed, setPosition]

/-- The pass of step 1 of the sample coast neither lands nor fails, and moves to `j = 1`. -/
theorem coast_loopBody1 :
    ∃ s2, loopBody (sampleWorld Real.sqrt Real.exp) coastParams coastQuants coastState1
      = Except.ok (Outcome.next s2) ∧ s2.j = 1 ∧ s2.height > 6378.1 := by
  norm_num [loopBody, fuelStep, positionStep, sampleWorld, coastParams, descentParams,
    coastQuants, coastState, coastState1, getScalar_real_axis_abs, abs_div, abs_neg,
    Nat.abs_ofNat, abs_mul, speed, airDensity, temperature, calculateTractiveForce,
    vec.multiplyWithDouble, speedHeating, calculateAerodynamicForce, calculateAngularVelocity,
    calculateGravityForce, cross, advance, setSpeed, setPosition]

/-- The loop condition holds on entry of the sample coast and at the head of step 1. -/
theorem coast_cond :
    ((coastState : LoopState ℝ).i < (coastQuants : Quants ℝ).numberOfQuants ∧
      (coastState : LoopState ℝ).height > (sampleWorld Real.sqrt Real.exp).EarthRadius) ∧
    ((coastState1 : LoopState ℝ).i < (coastQuants : Quants ℝ).numberOfQuants ∧
      (coastState1 : LoopState ℝ).height > (sampleWorld Real.sqrt Real.exp).EarthRadius) := by
  norm_num [coastQuants, coastState, coastState1, sampleWorld]

/-- The sample coast after one pass of the loop. -/
theorem coast_loop1 :
    loop (sampleWorld Real.sqrt Real.exp) coastParams coastQuants 1 coastState
      = Except.ok coastState1 := by
  rw [loop, if_pos coast_cond.1, coast_loopBody]
  rfl

end Scenarios

section Runs

/-- A loop entered with its condition false runs no pass. -/
theorem loop_of_not_cond {α : Type} [LinearOrderedField α] (W : World α) (P : ShipParams α)
    (Q : Quants α) (n : Nat) (s : LoopState α)
    (hc : ¬ (s.i < Q.numberOfQuants ∧ s.height > W.EarthRadius)) :
    loop W P Q n s = Except.ok s := by
  cases n with
  | zero => rfl
  | succ n => rw [loop, if_neg hc]

/-- The padding of an output that is still as initialised, from slot 0, changes nothing. -/
theorem padding_initial {α : Type} (zero : vec α) (n : Nat) (s : LoopState α) (hi : s.i = 0)
    (hs : s.calculatedFlightPlan = List.replicate n ⟨zero, zero⟩) :
    padding n s = List.replicate n ⟨zero, zero⟩ := by
  cases n with
  | zero =>
    unfold padding
    rw [hs]
    rfl
  | succ n =>
    have hr : s.calculatedFlightPlan[s.i]? = some ⟨zero, zero⟩ := by
      rw [hs, hi]
      exact List.getElem?_replicate_of_lt (Nat.succ_pos n)
    have hp := padding_spec (n + 1) s ⟨zero, zero⟩ (by rw [hs]; exact List.length_replicate _ _) hr
    apply List.ext_getElem?
    intro j
    rw [hp.2 j, hi, if_pos (Nat.zero_le j), hs, List.getElem?_replicate]
    split_ifs <;> rfl

/-- A run that starts at or below the planet radius, with a non-empty schedule, runs no pass
and returns the output as it was initialised: every position and velocity is the zero
vector. -/
theorem computeFlightPlan_on_ground {α : Type} [LinearOrderedField α] (W : World α)
    (I : ShipPosition α) (P : ShipParams α) (Q : Quants α) (c : FlightCommand α)
    (hc : P.flightPlan[0]? = some c) (hh : I.position.getScalar W.sqrt ≤ W.EarthRadius) :
    computeFlightPlan W I P Q
      = Except.ok (List.replicate Q.numberOfQuants ⟨⟨0, 0, 0⟩, ⟨0, 0, 0⟩⟩) := by
  unfold computeFlightPlan initialState
  rw [hc]
  dsimp only
  rw [loop_of_not_cond W P Q _ _ (fun hn => absurd hn.2 (not_lt.mpr hh))]
  dsimp only
  rw [if_pos hh]
  congr 1
  exact padding_initial ⟨0, 0, 0⟩ Q.numberOfQuants _ rfl rfl

/-- Witness for C11: the sample descent with three quants, which lands in the pass of
step 0. -/
theorem computeFlightPlan_landing_padding_witness :
    initialState (sampleWorld Real.sqrt Real.exp) descentStart descentParams descentQuants3
      = Except.ok descentState3 ∧
    loop (sampleWorld Real.sqrt Real.exp) descentParams descentQuants3 0 descentState3
      = Except.ok descentState3 ∧
    ((descentState3 : LoopState ℝ).i < (descentQuants3 : Quants ℝ).numberOfQuants ∧
      (descentState3 : LoopState ℝ).height > (sampleWorld Real.sqrt Real.exp).EarthRadius) ∧
    loopBody (sampleWorld Real.sqrt Real.exp) descentParams descentQuants3 descentState3
      = Except.ok (Outcome.stop (descentLanded3 Real.sqrt)) ∧
    ∃ out, computeFlightPlan (sampleWorld Real.sqrt Real.exp) descentStart descentParams
        descentQuants3 = Except.ok out ∧
      out.length = (descentQuants3 : Quants ℝ).numberOfQuants ∧
      (∃ r, (descentLanded3 Real.sqrt).calculatedFlightPlan[(descentState3 : LoopState ℝ).i]?
          = some r ∧ r.position = (descentLanded3 Real.sqrt).currentPosition) ∧
      (∀ j, (descentState3 : LoopState ℝ).i ≤ j → j < (descentQuants3 : Quants ℝ).numberOfQuants →
        ∃ r, out[j]? = some r ∧ r.position = (descentLanded3 Real.sqrt).currentPosition) ∧
      (∀ j, j < (descentState3 : LoopState ℝ).i →
        out[j]? = (descentLanded3 Real.sqrt).calculatedFlightPlan[j]?) :=
  ⟨descent3_initialState, rfl, descent3_cond, descent3_loopBody,
    computeFlightPlan_landing_padding (sampleWorld Real.sqrt Real.exp) descentStart
      descentParams descentQuants3 descentState3 descentState3 (descentLanded3 Real.sqrt) 0
      descent3_initialState rfl descent3_cond descent3_loopBody⟩

/-- C12 (the code at the failing input): a vehicle that starts exactly at the planet radius,
at rest, with a zero-thrust command and three quants. The run returns at once without error,
and the three output positions are the zero vector of the initialised output, not the
initial position. -/
theorem computeFlightPlan_start_on_surface :
    vec.getScalar Real.sqrt (groundStart : ShipPosition ℝ).position
      = (sampleWorld Real.sqrt Real.exp).EarthRadius ∧
    (groundStart : ShipPosition ℝ).speedFirst = ⟨0, 0, 0⟩ ∧
    (restParams : ShipParams ℝ).flightPlan = [⟨0, ⟨0, 0, 0⟩, 1000⟩] ∧
    computeFlightPlan (sampleWorld Real.sqrt Real.exp) groundStart restParams descentQuants3
      = Except.ok [⟨⟨0, 0, 0⟩, ⟨0, 0, 0⟩⟩, ⟨⟨0, 0, 0⟩, ⟨0, 0, 0⟩⟩, ⟨⟨0, 0, 0⟩, ⟨0, 0, 0⟩⟩] ∧
    (⟨0, 0, 0⟩ : vec ℝ) ≠ (groundStart : ShipPosition ℝ).position := by
  have hR : vec.getScalar Real.sqrt (groundStart : ShipPosition ℝ).position
      = (sampleWorld Real.sqrt Real.exp).EarthRadius := by
    norm_num [groundStart, sampleWorld, getScalar_real_axis_abs, abs_div, Nat.abs_ofNat]
  refine ⟨hR, rfl, rfl, ?_, ?_⟩
  · exact computeFlightPlan_on_ground (sampleWorld Real.sqrt Real.exp) groundStart restParams
      descentQuants3 ⟨0, ⟨0, 0, 0⟩, 1000⟩ rfl (le_of_eq hR)
  · intro h
    have hx := congrArg vec.x h
    norm_num [groundStart] at hx

/-- Witness for C13: the first pass of the sample descent with the overload limit 1. -/
theorem speed_overload_witness :
    ((1000 : ℝ) + 500 ≠ 0 ∧ (0 : ℝ) < 100 ∧
      (sampleWorld Real.sqrt Real.exp).EarthRadius
        < vec.getScalar (sampleWorld Real.sqrt Real.exp).sqrt (⟨6578.1, 0, 0⟩ : vec ℝ) ∧
      ∃ rho, airDensity (sampleWorld Real.sqrt Real.exp).exp (sampleWorld Real.sqrt Real.exp).G
          (sampleWorld Real.sqrt Real.exp).EarthMass (sampleWorld Real.sqrt Real.exp).EarthRadius
          (sampleWorld Real.sqrt Real.exp).ZeroCelsius
          (vec.getScalar (sampleWorld Real.sqrt Real.exp).sqrt (⟨6578.1, 0, 0⟩ : vec ℝ))
            = Except.ok rho ∧
        (speed (sampleWorld Real.sqrt Real.exp) ⟨-3, 0, 0⟩ ⟨6578.1, 0, 0⟩ ⟨-1, 0, 0⟩ 2 1000 500
            ⟨0, 0, 0⟩ 3 0.002 100 1 1000 = Except.error Error.Overload ↔
          (netAcceleration (sampleWorld Real.sqrt Real.exp) ⟨-3, 0, 0⟩ ⟨6578.1, 0, 0⟩
              ⟨-1, 0, 0⟩ 2 (1000 + 500) 3 0.002 rho).getScalar
                (sampleWorld Real.sqrt Real.exp).sqrt
            / ((sampleWorld Real.sqrt Real.exp).G * (sampleWorld Real.sqrt Real.exp).EarthMass
                / vec.getScalar (sampleWorld Real.sqrt Real.exp).sqrt
                    (⟨6578.1, 0, 0⟩ : vec ℝ) ^ 2) > 1)) ∧
    (initialState (sampleWorld Real.sqrt Real.exp) descentStart overloadParams descentQuants
        = Except.ok descentState ∧
      loop (sampleWorld Real.sqrt Real.exp) overloadParams descentQuants 0 descentState
        = Except.ok descentState ∧
      ((descentState : LoopState ℝ).i < (descentQuants : Quants ℝ).numberOfQuants ∧
        (descentState : LoopState ℝ).height > (sampleWorld Real.sqrt Real.exp).EarthRadius) ∧
      (overloadParams : ShipParams ℝ).flightPlan[(descentState : LoopState ℝ).j]?
        = some ⟨2, ⟨0, 0, 0⟩, 1000⟩ ∧
      rotationStep (sampleWorld Real.sqrt Real.exp) overloadParams descentQuants
        ⟨2, ⟨0, 0, 0⟩, 1000⟩ descentState = Except.ok descentState ∧
      ¬ (2 : ℝ) * (descentQuants : Quants ℝ).quantSizeOfSec > (descentState : LoopState ℝ).fuel ∧
      computeFlightPlan (sampleWorld Real.sqrt Real.exp) descentStart overloadParams
        descentQuants = Except.error Error.Overload) :=
  have hm : (1000 : ℝ) + 500 ≠ 0 := by norm_num
  have hdt : (0 : ℝ) < 100 := by norm_num
  have hf : ¬ (2 : ℝ) * (descentQuants : Quants ℝ).quantSizeOfSec
      > (descentState : LoopState ℝ).fuel := by
    norm_num [descentQuants, descentState]
  ⟨⟨hm, hdt, descent_above,
      (speed_overload (sampleWorld Real.sqrt Real.exp)).1 ⟨-3, 0, 0⟩ ⟨6578.1, 0, 0⟩ ⟨-1, 0, 0⟩
        2 1000 500 ⟨0, 0, 0⟩ 3 0.002 100 1 1000 hm hdt descent_above⟩,
    ⟨overload_initialState, rfl, descent_cond, rfl, overload_rotationStep, hf,
      (speed_overload (sampleWorld Real.sqrt Real.exp)).2 descentStart overloadParams
        descentQuants descentState descentState descentState 0 ⟨2, ⟨0, 0, 0⟩, 1000⟩
        overload_initialState rfl descent_cond rfl overload_rotationStep hf overload_speed⟩⟩

/-- C14 (the code at the failing input): the sample descent with three quants lands in the
pass of step 0, and `0 < numberOfQuants - 1`. The output velocity of steps 1 and 2 is the zero
vector to which the output is initialised, not the velocity recorded for step 0: the padding
copies positions only. -/
theorem computeFlightPlan_padding_velocity :
    initialState (sampleWorld Real.sqrt Real.exp) descentStart descentParams descentQuants3
      = Except.ok descentState3 ∧
    loopBody (sampleWorld Real.sqrt Real.exp) descentParams descentQuants3 descentState3
      = Except.ok (Outcome.stop (descentLanded3 Real.sqrt)) ∧
    ∃ r0 r1 r2 : ReturnValues ℝ,
      computeFlightPlan (sampleWorld Real.sqrt Real.exp) descentStart descentParams
        descentQuants3 = Except.ok [r0, r1, r2] ∧
      r0.speed = descentSpeed ∧ r1.speed = ⟨0, 0, 0⟩ ∧ r2.speed = ⟨0, 0, 0⟩ ∧
      r1.speed ≠ r0.speed ∧ r2.speed ≠ r0.speed := by
  have hne : (⟨0, 0, 0⟩ : vec ℝ) ≠ descentSpeed := by
    intro h
    have hx := congrArg vec.x h
    norm_num [descentSpeed] at hx
  exact ⟨descent3_initialState, descent3_loopBody, _, _, _, descent3_computeFlightPlan,
    rfl, rfl, rfl, hne, hne⟩

/-- Witness for C15: the velocity update of the first pass of the sample descent. -/
theorem speed_euler_witness :
    (1000 : ℝ) + 500 ≠ 0 ∧ (0 : ℝ) < 100 ∧
    (sampleWorld Real.sqrt Real.exp).EarthRadius
      < vec.getScalar (sampleWorld Real.sqrt Real.exp).sqrt (⟨6578.1, 0, 0⟩ : vec ℝ) ∧
    speed (sampleWorld Real.sqrt Real.exp) ⟨-3, 0, 0⟩ ⟨6578.1, 0, 0⟩ ⟨-1, 0, 0⟩ 2 1000 500
      ⟨0, 0, 0⟩ 3 0.002 100 10 1000 = Except.ok descentSpeed ∧
    ∃ rho, airDensity (sampleWorld Real.sqrt Real.exp).exp (sampleWorld Real.sqrt Real.exp).G
        (sampleWorld Real.sqrt Real.exp).EarthMass (sampleWorld Real.sqrt Real.exp).EarthRadius
        (sampleWorld Real.sqrt Real.exp).ZeroCelsius
        (vec.getScalar (sampleWorld Real.sqrt Real.exp).sqrt (⟨6578.1, 0, 0⟩ : vec ℝ))
          = Except.ok rho ∧
      descentSpeed = speedFormula (sampleWorld Real.sqrt Real.exp) ⟨-3, 0, 0⟩ ⟨6578.1, 0, 0⟩
        ⟨-1, 0, 0⟩ 2 (1000 + 500) 3 0.002 100 rho ∧
      descentSpeed = eulerUpdate (sampleWorld Real.sqrt Real.exp) ⟨-3, 0, 0⟩ ⟨6578.1, 0, 0⟩
        ⟨-1, 0, 0⟩ 2 (1000 + 500) 3 0.002 100 rho :=
  have hm : (1000 : ℝ) + 500 ≠ 0 := by norm_num
  have hdt : (0 : ℝ) < 100 := by norm_num
  ⟨hm, hdt, descent_above, descent_speed,
    speed_euler (sampleWorld Real.sqrt Real.exp) ⟨-3, 0, 0⟩ ⟨6578.1, 0, 0⟩ ⟨-1, 0, 0⟩ 2 1000 500
      ⟨0, 0, 0⟩ 3 0.002 100 10 1000 hm hdt descent_above descentSpeed descent_speed⟩

/-- Witness for C16: a call with the quant 0, low on the atmosphere and with a heating limit
that any heating exceeds. -/
theorem speed_nonpositive_quant_witness :
    (1000 : ℝ) + 500 ≠ 0 ∧ (0 : ℝ) ≤ 0 ∧
    speed (sampleWorld Real.sqrt Real.exp) ⟨-3, 0, 0⟩ ⟨6400, 0, 0⟩ ⟨-1, 0, 0⟩ 2 1000 500
      ⟨0, 0, 0⟩ 3 0.002 0 10 (-1) = Except.ok ⟨-3, 0, 0⟩ :=
  have hm : (1000 : ℝ) + 500 ≠ 0 := by norm_num
  ⟨hm, le_refl 0,
    speed_nonpositive_quant (sampleWorld Real.sqrt Real.exp) ⟨-3, 0, 0⟩ ⟨6400, 0, 0⟩
      ⟨-1, 0, 0⟩ 2 1000 500 ⟨0, 0, 0⟩ 3 0.002 0 10 (-1) hm (le_refl 0)⟩

/-- C17 (counterexample): a call of `speed` with the quant 0 and total mass 1500, at
`|position| = 6400 ≤ 6523.1` and with `maxHeating = -1`. The temperature the code would use is
0, so the heating exceeds `maxHeating` both for the velocity `exit = (0, 0, 0)` the code holds
at that point and for the previous velocity; yet `speed` returns the previous velocity and
does not fail with `Overheating`. -/
theorem speed_skips_heating_on_nonpositive_quant :
    (0 : ℝ) ≤ 0 ∧
    vec.getScalar (sampleWorld Real.sqrt Real.exp).sqrt (⟨6400, 0, 0⟩ : vec ℝ) ≤ 6523.1 ∧
    temperature (sampleWorld Real.sqrt Real.exp).ZeroCelsius
      (vec.getScalar (sampleWorld Real.sqrt Real.exp).sqrt (⟨6400, 0, 0⟩ : vec ℝ))
        = Except.ok 0 ∧
    aerodynamicHeating (sampleWorld Real.sqrt Real.exp).sqrt 0 (⟨0, 0, 0⟩ : vec ℝ) > -1 ∧
    aerodynamicHeating (sampleWorld Real.sqrt Real.exp).sqrt 0 (⟨-3, 0, 0⟩ : vec ℝ) > -1 ∧
    speed (sampleWorld Real.sqrt Real.exp) ⟨-3, 0, 0⟩ ⟨6400, 0, 0⟩ ⟨-1, 0, 0⟩ 2 1000 500
      ⟨0, 0, 0⟩ 3 0.002 0 10 (-1) = Except.ok ⟨-3, 0, 0⟩ ∧
    speed (sampleWorld Real.sqrt Real.exp) ⟨-3, 0, 0⟩ ⟨6400, 0, 0⟩ ⟨-1, 0, 0⟩ 2 1000 500
      ⟨0, 0, 0⟩ 3 0.002 0 10 (-1) ≠ Except.error Error.Overheating := by
  have hs : speed (sampleWorld Real.sqrt Real.exp) ⟨-3, 0, 0⟩ ⟨6400, 0, 0⟩ ⟨-1, 0, 0⟩ 2 1000
      500 ⟨0, 0, 0⟩ 3 0.002 0 10 (-1) = Except.ok ⟨-3, 0, 0⟩ :=
    speed_of_nonpos (sampleWorld Real.sqrt Real.exp) ⟨-3, 0, 0⟩ ⟨6400, 0, 0⟩ ⟨-1, 0, 0⟩ 2 1000
      500 ⟨0, 0, 0⟩ 3 0.002 0 10 (-1) (by norm_num) (le_refl 0)
  refine ⟨le_refl 0, ?_, ?_, ?_, ?_, hs, ?_⟩
  · norm_num [sampleWorld, getScalar_real_axis_abs, abs_div, Nat.abs_ofNat]
  · norm_num [sampleWorld, temperature, getScalar_real_axis_abs, abs_div, Nat.abs_ofNat]
  · norm_num [sampleWorld, aerodynamicHeating, getScalar_real_axis_abs]
  · norm_num [sampleWorld, aerodynamicHeating, getScalar_real_axis_abs, abs_div, abs_neg,
      Nat.abs_ofNat]
  · rw [hs]
    intro h
    cases h

/-- With total mass zero `speed` goes straight to the heating check, on the zero velocity. -/
theorem speed_of_zero_mass {α : Type} [LinearOrderedField α] (W : World α)
    (previousSpeed position orientation : vec α) (fuelConsumption mShip mFuel : α)
    (moment : Rotation α) (specificImpulse size quantSizeOfSec maxOverload maxHeating : α)
    (hm : mShip + mFuel = 0) :
    speed W previousSpeed position orientation fuelConsumption mShip mFuel moment
        specificImpulse size quantSizeOfSec maxOverload maxHeating
      = speedHeating W position ⟨0, 0, 0⟩ (position.getScalar W.sqrt) maxHeating := by
  unfold speed
  dsimp only
  rw [if_neg (not_not.mpr hm)]

/-- Above 6523.1 from the centre the heating check is skipped. -/
theorem speedHeating_high {α : Type} [LinearOrderedField α] (W : World α)
    (position exit : vec α) (H maxHeating : α) (hH : ¬ H ≤ 6523.1) :
    speedHeating W position exit H maxHeating = Except.ok exit := by
  unfold speedHeating
  rw [if_neg hH]

/-- C17 (amended): for a call of `speed` with a quant `dt ≤ 0`: when the total mass is not
zero no heating check runs and `speed` returns the previous velocity; the heating check is
reached only when the total mass is zero, on the zero velocity: `speed` fails with
`Overheating` only if the total mass is zero and `|position| ≤ 6523.1`, and with total mass
zero whatever it returns is the zero vector, which it returns whenever `|position| > 6523.1`. -/
theorem speed_heating_of_nonpositive_quant {α : Type} [LinearOrderedField α] (W : World α)
    (previousSpeed position orientation : vec α) (fuelConsumption mShip mFuel : α)
    (moment : Rotation α) (specificImpulse size quantSizeOfSec maxOverload maxHeating : α)
    (hdt : quantSizeOfSec ≤ 0) :
    (mShip + mFuel ≠ 0 →
      speed W previousSpeed position orientation fuelConsumption mShip mFuel moment
        specificImpulse size quantSizeOfSec maxOverload maxHeating
          = Except.ok previousSpeed) ∧
    (speed W previousSpeed position orientation fuelConsumption mShip mFuel moment
        specificImpulse size quantSizeOfSec maxOverload maxHeating
          = Except.error Error.Overheating →
      mShip + mFuel = 0 ∧ position.getScalar W.sqrt ≤ 6523.1) ∧
    (mShip + mFuel = 0 →
      ∀ r, speed W previousSpeed position orientation fuelConsumption mShip mFuel moment
          specificImpulse size quantSizeOfSec maxOverload maxHeating = Except.ok r →
        r = ⟨0, 0, 0⟩) ∧
    (mShip + mFuel = 0 → ¬ position.getScalar W.sqrt ≤ 6523.1 →
      speed W previousSpeed position orientation fuelConsumption mShip mFuel moment
        specificImpulse size quantSizeOfSec maxOverload maxHeating
          = Except.ok ⟨0, 0, 0⟩) := by
  refine ⟨?_, ?_, ?_, ?_⟩
  · intro hm
    exact speed_of_nonpos W previousSpeed position orientation fuelConsumption mShip mFuel
      moment specificImpulse size quantSizeOfSec maxOverload maxHeating hm hdt
  · intro he
    by_cases hm : mShip + mFuel = 0
    · refine ⟨hm, ?_⟩
      by_contra hH
      rw [speed_of_zero_mass W previousSpeed position orientation fuelConsumption mShip mFuel
        moment specificImpulse size quantSizeOfSec maxOverload maxHeating hm,
        speedHeating_high W position _ _ maxHeating hH] at he
      cases he
    · rw [speed_of_nonpos W previousSpeed position orientation fuelConsumption mShip mFuel
        moment specificImpulse size quantSizeOfSec maxOverload maxHeating hm hdt] at he
      cases he
  · intro hm r hr
    rw [speed_of_zero_mass W previousSpeed position orientation fuelConsumption mShip mFuel
      moment specificImpulse size quantSizeOfSec maxOverload maxHeating hm] at hr
    exact speedHeating_ok W _ _ _ _ _ hr
  · intro hm hH
    rw [speed_of_zero_mass W previousSpeed position orientation fuelConsumption mShip mFuel
      moment specificImpulse size quantSizeOfSec maxOverload maxHeating hm]
    exact speedHeating_high W position _ _ maxHeating hH

/-- A call of `speed` with the quant 0, total mass zero, `|position| = 6400` and
`maxHeating = -1` fails with `Overheating`. -/
theorem zero_mass_overheating :
    speed (sampleWorld Real.sqrt Real.exp) ⟨-3, 0, 0⟩ ⟨6400, 0, 0⟩ ⟨-1, 0, 0⟩ 2 0 0
      ⟨0, 0, 0⟩ 3 0.002 0 10 (-1) = Except.error Error.Overheating := by
  norm_num [sampleWorld, getScalar_real_axis_abs, abs_div, abs_neg, Nat.abs_ofNat, abs_mul,
    speed, temperature, speedHeating, aerodynamicHeating]

/-- Witness for the amended C17: the call of the counterexample with total mass zero, which
fails with `Overheating`, and with total mass 1500, which returns the previous velocity. -/
theorem speed_heating_of_nonpositive_quant_witness :
    (0 : ℝ) ≤ 0 ∧
    speed (sampleWorld Real.sqrt Real.exp) ⟨-3, 0, 0⟩ ⟨6400, 0, 0⟩ ⟨-1, 0, 0⟩ 2 0 0
      ⟨0, 0, 0⟩ 3 0.002 0 10 (-1) = Except.error Error.Overheating ∧
    ((0 : ℝ) + 0 = 0 ∧
      vec.getScalar (sampleWorld Real.sqrt Real.exp).sqrt (⟨6400, 0, 0⟩ : vec ℝ) ≤ 6523.1) ∧
    (1000 : ℝ) + 500 ≠ 0 ∧
    speed (sampleWorld Real.sqrt Real.exp) ⟨-3, 0, 0⟩ ⟨6400, 0, 0⟩ ⟨-1, 0, 0⟩ 2 1000 500
      ⟨0, 0, 0⟩ 3 0.002 0 10 (-1) = Except.ok ⟨-3, 0, 0⟩ :=
  have hm : (1000 : ℝ) + 500 ≠ 0 := by norm_num
  ⟨le_refl 0, zero_mass_overheating,
    (speed_heating_of_nonpositive_quant (sampleWorld Real.sqrt Real.exp) ⟨-3, 0, 0⟩
      ⟨6400, 0, 0⟩ ⟨-1, 0, 0⟩ 2 0 0 ⟨0, 0, 0⟩ 3 0.002 0 10 (-1) (le_refl 0)).2.1
      zero_mass_overheating,
    hm,
    (speed_heating_of_nonpositive_quant (sampleWorld Real.sqrt Real.exp) ⟨-3, 0, 0⟩
      ⟨6400, 0, 0⟩ ⟨-1, 0, 0⟩ 2 1000 500 ⟨0, 0, 0⟩ 3 0.002 0 10 (-1) (le_refl 0)).1 hm⟩

/-- C18 (the code at the failing input): a call of `speed` for a vehicle of mass 1000 at
rest 10 above the surface (`H = 6388.1`, between `EarthRadius = 6378.1` and 6523.1), with
`dt = 1` and `maxHeating = 100`. The temperature at the altitude 10 is 213.15, so
`temperature(H - EarthRadius) + |next|^2 / 2 > maxHeating`; the code takes the temperature at
`H` itself, which is 0, and returns `next` instead of failing with `Overheating`. -/
theorem speed_heating_at_centre_distance :
    (1000 : ℝ) + 0 ≠ 0 ∧ (0 : ℝ) < 1 ∧
    (sampleWorld Real.sqrt Real.exp).EarthRadius
      < vec.getScalar (sampleWorld Real.sqrt Real.exp).sqrt (⟨6388.1, 0, 0⟩ : vec ℝ) ∧
    vec.getScalar (sampleWorld Real.sqrt Real.exp).sqrt (⟨6388.1, 0, 0⟩ : vec ℝ) ≤ 6523.1 ∧
    speed (sampleWorld Real.sqrt Real.exp) ⟨0, 0, 0⟩ ⟨6388.1, 0, 0⟩ ⟨-1, 0, 0⟩ 0 1000 0
      ⟨0, 0, 0⟩ 3 0.002 1 10 100 = Except.ok ⟨-(39819900 / 4080782161), 0, 0⟩ ∧
    temperature (sampleWorld Real.sqrt Real.exp).ZeroCelsius
      (vec.getScalar (sampleWorld Real.sqrt Real.exp).sqrt (⟨6388.1, 0, 0⟩ : vec ℝ)
        - (sampleWorld Real.sqrt Real.exp).EarthRadius) = Except.ok 213.15 ∧
    aerodynamicHeating (sampleWorld Real.sqrt Real.exp).sqrt 213.15
      (⟨-(39819900 / 4080782161), 0, 0⟩ : vec ℝ) > 100 ∧
    temperature (sampleWorld Real.sqrt Real.exp).ZeroCelsius
      (vec.getScalar (sampleWorld Real.sqrt Real.exp).sqrt (⟨6388.1, 0, 0⟩ : vec ℝ))
        = Except.ok 0 := by
  refine ⟨by norm_num, by norm_num, ?_, ?_, ?_, ?_, ?_, ?_⟩
  · norm_num [sampleWorld, getScalar_real_axis_abs, abs_div, Nat.abs_ofNat]
  · norm_num [sampleWorld, getScalar_real_axis_abs, abs_div, Nat.abs_ofNat]
  · norm_num [sampleWorld, getScalar_real_axis_abs, abs_div, abs_neg, Nat.abs_ofNat, abs_mul,
      speed, airDensity, temperature, calculateTractiveForce, vec.multiplyWithDouble,
      speedHeating, aerodynamicHeating]
  · norm_num [sampleWorld, temperature, getScalar_real_axis_abs, abs_div, Nat.abs_ofNat]
  · norm_num [sampleWorld, aerodynamicHeating, getScalar_real_axis_abs, abs_div, abs_neg,
      Nat.abs_ofNat]
  · norm_num [sampleWorld, temperature, getScalar_real_axis_abs, abs_div, Nat.abs_ofNat]

/-- C19 (the code at the failing input): the sample coast, whose first command has
`delayTime = 1 * dt` (`k = 1`). The passes of steps 0 and 1 neither land nor fail. At the head
of step 1 the command index is still `j = 0`, so step 1 reads the first command again; the
index becomes 1 only after step 1, so the second command is first read at step 2. -/
theorem computeFlightPlan_command_switch_late :
    initialState (sampleWorld Real.sqrt Real.exp) coastStart coastParams coastQuants
      = Except.ok coastState ∧
    (coastParams : ShipParams ℝ).flightPlan
      = [⟨1, ⟨0, 0, 0⟩, 1 * (coastQuants : Quants ℝ).quantSizeOfSec⟩, ⟨2, ⟨0, 0, 0⟩, 5⟩] ∧
    loop (sampleWorld Real.sqrt Real.exp) coastParams coastQuants 1 coastState
      = Except.ok coastState1 ∧
    (coastState1 : LoopState ℝ).i = 1 ∧ (coastState1 : LoopState ℝ).j = 0 ∧
    ((coastState1 : LoopState ℝ).i < (coastQuants : Quants ℝ).numberOfQuants ∧
      (coastState1 : LoopState ℝ).height > (sampleWorld Real.sqrt Real.exp).EarthRadius) ∧
    ∃ s2, loop (sampleWorld Real.sqrt Real.exp) coastParams coastQuants 2 coastState
        = Except.ok s2 ∧ s2.i = 2 ∧ s2.j = 1 ∧
      (s2.i < (coastQuants : Quants ℝ).numberOfQuants ∧
        s2.height > (sampleWorld Real.sqrt Real.exp).EarthRadius) := by
  obtain ⟨s2, hb, hj, hh⟩ := coast_loopBody1
  have hi : s2.i = 1 := loopBody_i (sampleWorld Real.sqrt Real.exp) coastParams coastQuants
    coastState1 _ hb
  have hplan : (coastParams : ShipParams ℝ).flightPlan
      = [⟨1, ⟨0, 0, 0⟩, 1 * (coastQuants : Quants ℝ).quantSizeOfSec⟩, ⟨2, ⟨0, 0, 0⟩, 5⟩] := by
    norm_num [coastParams, coastQuants]
  refine ⟨coast_initialState, hplan, coast_loop1, rfl, rfl, coast_cond.2,
    { s2 with i := s2.i + 1 }, ?_, ?_, hj, ?_, ?_⟩
  · have e : loop (sampleWorld Real.sqrt Real.exp) coastParams coastQuants (1 + 1) coastState
        = Except.ok { s2 with i := s2.i + 1 } := by
      rw [loop_succ, coast_loop1]
      dsimp only
      rw [loop, if_pos coast_cond.2, hb]
      rfl
    exact e
  · dsimp only
    omega
  · dsimp only
    rw [hi]
    norm_num [coastQuants]
  · exact hh

end Runs

end Orbit
